import Mathlib

/-!
Verification development for a turn-based roguelike dungeon crawler.

The definitions below are a shallow embedding, translated from the Python
sources under `src/game/`:
  actions.py, components/component.py, dungeon/floor.py, dungeon/spawner.py,
  spawner.py, gamestates.py.
Python objects become Lean structures; in-place mutation becomes explicit
state passing; machine reads of `None` become `Option`; code paths that raise
exceptions return an explicit `PyResult` error value.

Several modules the sources refer to are absent from the repository snapshot
(engine.py, entities.py, rng.py, dungeon/dungeon.py, dungeon/room.py,
pathfinding.py, components/fighter.py).  Every definition standing in for one
of those carries a doc comment beginning `Modelled from the spec:` and is kept
faithful to the specification text.

Modelling conventions:
  * The player entity is held by reference both in `engine.player` and inside
    each floor entity list in the source; here the player record is the single
    field `Engine.player` and the floor entity lists hold the non-player
    entities, so that there is exactly one copy of each mutable object.
  * Message text is kept as short fixed strings; the source formats entity
    names into the messages, which is display metadata and opaque to the core
    logic per the specification.
  * The seeded RNG stream owned by the engine (`RandomNumberGenerator`) is
    modelled as a list of boolean combat-roll outcomes `Engine.rolls`; each
    Fighter check consumes one draw.  The separate global `random` module
    stream used by component.py / dungeon code is modelled explicitly as
    `GlobalRng` values passed alongside, since it is a distinct stream.
-/

/-- Error values for Python exceptions raised by embedded code paths. -/
inductive PyErr where
  | typeError
  | indexError
  | attributeError
deriving DecidableEq, Repr

/-- Result of running an embedded code path that can raise. -/
inductive PyResult (α : Type) where
  | ok (a : α)
  | error (e : PyErr)
deriving DecidableEq, Repr

/-- An argument passed to a Python call site: either an integer or some other
object (identified by entity id).  Used to embed the dynamically-typed call
`inventory.remove_item(self.item)` against the by-index overload. -/
inductive PyIdx where
  | int (i : Int)
  | obj (eid : Nat)
deriving DecidableEq, Repr

/-- Modelled from the spec: components/fighter.py is absent from src.
Fighter carries health and the derived damage / critical damage values; the
spec says damage is subtracted from target health and `is_dead` holds when
health reaches 0 or below. -/
structure Fighter where
  health : Int
  damage : Nat
  criticalDamage : Nat
deriving DecidableEq, Repr, Inhabited

/-- Modelled from the spec: components/leveler.py is absent from src.
Leveler tracks experience; `absorb` adds the experience drop of the slain target. -/
structure Leveler where
  experience : Nat
  experienceDrop : Nat
deriving DecidableEq, Repr, Inhabited

/-- Behavior state of the "ai" component slot (component.py / components/ai.py). -/
inductive AIKind where
  | noAI
  | wanderingAI
  | hostileAI
  | allyAI
deriving DecidableEq, Repr, Inhabited

/-- Entity variants (entities.py is absent from src; variants per the spec). -/
inductive EntityKind where
  | player
  | creature
  | item
  | staircase
deriving DecidableEq, Repr, Inhabited

/-- Inventory component from components/component.py: a bounded ordered list
of held items (items are entity ids with their records; see `Entity`). -/
structure Inventory where
  maxSlots : Nat
  items : List Nat
deriving DecidableEq, Repr, Inhabited

/-- Source `Inventory.size`: number of items held. -/
def Inventory.size (inv : Inventory) : Nat := inv.items.length

/-- Source `Inventory.add_item` from component.py.  The Python method body is
`if self.size >= self.max_slots: return` then `self.items.append(item)`;
it is annotated `-> None` and returns `None` on every path, which we record
as the second component of the result. -/
def Inventory.add_item (inv : Inventory) (item : Nat) : Inventory × Option Unit :=
  if inv.size ≥ inv.maxSlots then (inv, none)
  else ({ inv with items := inv.items ++ [item] }, none)

/-- Source `list.pop(arg)` as called on `Inventory.items`.  A non-integer argument
raises `TypeError`; an out-of-range integer raises `IndexError`; Python also
accepts negative indices counting from the end. -/
def pyListPop (xs : List Nat) (arg : PyIdx) : PyResult (Nat × List Nat) :=
  match arg with
  | .obj _ => .error .typeError
  | .int i =>
    let j : Int := if i < 0 then i + xs.length else i
    if 0 ≤ j ∧ j < xs.length then
      .ok (xs.getD j.toNat 0, xs.take j.toNat ++ xs.drop (j.toNat + 1))
    else .error .indexError

/-- Source `Inventory.remove_item` from component.py.  The class defines two methods
of this name; Python keeps only the second (remove by list index via
`self.items.pop(item_idx)` with `except IndexError: return None`), which
shadows the first (remove by value).  This is the effective method. -/
def Inventory.remove_item (inv : Inventory) (itemIdx : PyIdx) :
    PyResult (Option Nat × Inventory) :=
  match pyListPop inv.items itemIdx with
  | .ok (it, rest) => .ok (some it, { inv with items := rest })
  | .error .indexError => .ok (none, inv)
  | .error e => .error e

/-- One add/remove operation on an inventory, for stating the capacity
invariant over operation sequences. -/
inductive InvOp where
  | addI (item : Nat)
  | removeI (idx : Int)
deriving DecidableEq, Repr

/-- Apply one operation; a raised error (impossible for integer indices)
leaves the inventory as-is. -/
def Inventory.applyOp (inv : Inventory) (op : InvOp) : Inventory :=
  match op with
  | .addI it => (inv.add_item it).1
  | .removeI i =>
    match inv.remove_item (.int i) with
    | .ok (_, inv2) => inv2
    | .error _ => inv

/-- Apply a sequence of operations left to right. -/
def Inventory.applyOps (inv : Inventory) (ops : List InvOp) : Inventory :=
  ops.foldl Inventory.applyOp inv

/-- Modelled from the spec: dungeon/room.py is absent from src.  A room is a
rectangle (x1, y1, width, height); `place_rooms` in floor.py carves rows
`x ∈ [x1, x2)` and columns `y ∈ [y1, y2)`, so `x2` spans the height and `y2`
the width; the spec gives center-cell and random-interior-cell queries. -/
structure Room where
  x1 : Nat
  y1 : Nat
  width : Nat
  height : Nat
deriving DecidableEq, Repr, Inhabited

/-- One past the last carved row of the room. -/
def Room.x2 (r : Room) : Nat := r.x1 + r.height

/-- One past the last carved column of the room. -/
def Room.y2 (r : Room) : Nat := r.y1 + r.width

/-- Modelled from the spec: center-cell query of a room. -/
def Room.getCenterCell (r : Room) : Nat × Nat :=
  (r.x1 + r.height / 2, r.y1 + r.width / 2)

/-- Modelled from the spec: `rooms_intersect` is an axis-aligned rectangle
overlap test used with a 1-cell margin so rooms never touch; with `x2`/`y2`
one past the carved extent, comparing with `≤` keeps the margin. -/
def Room.intersectsWith (a b : Room) : Bool :=
  a.x1 ≤ b.x2 && b.x1 ≤ a.x2 && a.y1 ≤ b.y2 && b.y1 ≤ a.y2

/-- An entity (entities.py is absent from src; fields follow the spec data
model and the attribute reads performed by the sources under src/).
Components are carried inline: `fighter`, `leveler`, `inventory`, the "ai"
slot, and a flag for whether an "equippable" component is attached. -/
structure Entity where
  eid : Nat
  kind : EntityKind
  x : Int
  y : Int
  blocking : Bool
  ai : AIKind := .noAI
  agro : Bool := false
  fighter : Fighter := default
  leveler : Leveler := default
  inventory : Inventory := default
  hasEquippable : Bool := false
  parent : Option Nat := none
deriving DecidableEq, Repr, Inhabited

/-- A dungeon floor, from dungeon/floor.py: a tile grid (walkable flags,
indexed `tiles[x][y]` with `x` ranging over the height), the ordered room
list, the ordered entity list, and optional staircase cells. -/
structure Floor where
  width : Nat
  height : Nat
  tiles : List (List Bool)
  rooms : List Room
  entities : List Entity
  descendingStaircaseLocation : Option (Int × Int) := none
  ascendingStaircaseLocation : Option (Int × Int) := none
deriving DecidableEq, Repr, Inhabited

/-- Source `Floor.first_room` from floor.py: `self.rooms[0]`. -/
def Floor.first_room (fl : Floor) : Room := fl.rooms.getD 0 default

/-- Source `Floor.last_room` from floor.py: `self.rooms[-1]`. -/
def Floor.last_room (fl : Floor) : Room := fl.rooms.getD (fl.rooms.length - 1) default

/-- Walkability of `tiles[x][y]`; out-of-range reads count as non-walkable. -/
def Floor.tileWalkable (fl : Floor) (x y : Int) : Bool :=
  ((fl.tiles.getD x.toNat []).getD y.toNat false) && (0 ≤ x && 0 ≤ y)

/-- Source `Floor.add_entity` — called by the sources but not defined in floor.py.
Modelled from the spec: appends to the ordered entity list; dead entities
re-sorted via remove-then-add thus end up at the back of the list. -/
def Floor.add_entity (fl : Floor) (ent : Entity) : Floor :=
  { fl with entities := fl.entities ++ [ent] }

/-- The engine-held game state read and written by action resolution
(engine.py is absent from src; these are exactly the fields the actions under
src/ touch: player, dungeon state, save metadata counters, message log, and
the seeded RNG stream). -/
structure Engine where
  player : Entity
  floors : List Floor
  currentFloorIndex : Nat
  deepestFloorIndex : Nat
  turns : Nat
  slayed : Nat
  messages : List String
  rolls : List Bool
deriving DecidableEq, Repr, Inhabited

/-- Source `dungeon.current_floor`: the floor at the current index. -/
def Engine.currentFloor (e : Engine) : Floor :=
  e.floors.getD e.currentFloorIndex default

/-- Append a message to the message log. -/
def Engine.addMessage (e : Engine) (m : String) : Engine :=
  { e with messages := e.messages ++ [m] }

/-- Source `engine.save_meta["turns"] += 1`. -/
def Engine.recordTurn (e : Engine) : Engine :=
  { e with turns := e.turns + 1 }

/-- Outcome of the next seeded combat roll (head of the seeded stream).
Modelled from the spec: the Fighter check methods (fighter.py absent) each
draw once from the seeded RNG service; the drawn outcome is the head. -/
def Engine.rollHead (e : Engine) : Bool := e.rolls.headD false

/-- Consume one seeded combat roll. -/
def Engine.rollNext (e : Engine) : Engine := { e with rolls := e.rolls.tail }

/-- Look up an entity by id: the player, else the list of the current floor. -/
def Engine.findEntity (e : Engine) (eid : Nat) : Option Entity :=
  if e.player.eid = eid then some e.player
  else e.currentFloor.entities.find? (fun a => a.eid = eid)

/-- Replace the current floor by `f` applied to it. -/
def Engine.modifyCurrentFloor (e : Engine) (f : Floor → Floor) : Engine :=
  { e with floors := e.floors.set e.currentFloorIndex (f e.currentFloor) }

/-- Apply `f` to the entity with the given id (the player, or every matching
record in the list of the current floor — entity ids are unique in well-formed
states, mirroring Python object identity). -/
def Engine.updateEntityById (e : Engine) (eid : Nat) (f : Entity → Entity) : Engine :=
  if e.player.eid = eid then { e with player := f e.player }
  else e.modifyCurrentFloor (fun fl =>
    { fl with entities := fl.entities.map (fun a => if a.eid = eid then f a else a) })

/-- Source `floor.blocking_entity_at(x, y)` from floor.py: the first entity at the
cell with the `blocking` flag (the player record is checked first, standing
in for its membership in the Python entity list). -/
def Engine.blockingEntityAt (e : Engine) (x y : Int) : Option Entity :=
  if e.player.x = x ∧ e.player.y = y ∧ e.player.blocking then some e.player
  else e.currentFloor.entities.find? (fun a => a.x = x && a.y = y && a.blocking)

/-- Source `floor.entities.remove(target)` followed by `floor.add_entity(target)` in
MeleeAction: moves the (first) record with the given id to the back of the
entity list of the current floor.  A no-op for the player, whose record is modelled
outside the list. -/
def Engine.moveEntityToBack (e : Engine) (eid : Nat) : Engine :=
  e.modifyCurrentFloor (fun fl =>
    match fl.entities.find? (fun a => a.eid = eid) with
    | none => fl
    | some t => { fl with entities := fl.entities.erase t ++ [t] })

/-- Remove the (first) record with the given id from the current floor. -/
def Engine.removeEntityFromCurrentFloor (e : Engine) (eid : Nat) : Engine :=
  e.modifyCurrentFloor (fun fl =>
    { fl with entities := fl.entities.eraseP (fun a => a.eid = eid) })

/-- Health of the entity with the given id. -/
def Engine.healthOf (e : Engine) (eid : Nat) : Int :=
  ((e.findEntity eid).getD default).fighter.health

/-- The (id, x, y) projection of every entity in play on the current floor,
player first: the position state the frame conditions quantify over. -/
def Engine.posMap (e : Engine) : List (Nat × Int × Int) :=
  (e.player.eid, e.player.x, e.player.y) ::
    e.currentFloor.entities.map (fun a => (a.eid, a.x, a.y))

/-- Entity ids are pairwise distinct (Python object identity). -/
def Engine.wfIds (e : Engine) : Prop :=
  (e.currentFloor.entities.map Entity.eid).Nodup ∧
    e.player.eid ∉ e.currentFloor.entities.map Entity.eid

instance (e : Engine) : Decidable e.wfIds := by
  unfold Engine.wfIds; infer_instance

/-- Modelled from the spec: spawner.py `Spawner.spawn_player` places the
player at the center cell of the selected room (the floor-list insertion is the
player-aliasing convention noted at the top of this file). -/
def Spawner.spawn_player (e : Engine) (room : Room) : Engine :=
  let c := room.getCenterCell
  { e with player := { e.player with x := (c.1 : Int), y := (c.2 : Int) } }

/-- Modelled from the spec: dungeon/dungeon.py is absent from src.
`generate_next_floor` builds the floor at depth deepest+1 (produced here by
the supplied generator standing in for the FloorBuilder pipeline), appends it
to the ordered floor list and advances the deepest index. -/
def Dungeon.generate_next_floor (gen : Nat → Floor) (e : Engine) : Engine :=
  { e with
      floors := e.floors ++ [gen (e.deepestFloorIndex + 1)],
      deepestFloorIndex := e.deepestFloorIndex + 1 }

/-- Source `WalkAction.perform` from actions.py: bounds check against the floor
dimensions, blocked-tile check, blocking-entity check, then relocate the
actor; only a player actor increments the persistent turn counter. -/
def WalkAction.perform (e : Engine) (actorId : Nat) (dx dy : Int) : Engine × Bool :=
  let actor := (e.findEntity actorId).getD default
  let fl := e.currentFloor
  let desiredX := actor.x + dx
  let desiredY := actor.y + dy
  if desiredX > (fl.height : Int) - 1 ∨ desiredX < 0 ∨
     desiredY > (fl.width : Int) - 1 ∨ desiredY < 0 then
    (e.addMessage "Out of bounds", false)
  else if ¬ fl.tileWalkable desiredX desiredY then
    (if actorId = e.player.eid then e.addMessage "That way is blocked" else e, false)
  else if (e.blockingEntityAt desiredX desiredY).isSome then
    (e, false)
  else
    let e1 := e.updateEntityById actorId (fun a => { a with x := a.x + dx, y := a.y + dy })
    let e2 := if actor.kind = EntityKind.player then e1.recordTurn else e1
    (e2, true)

/-- Damage tier of one attack: critical damage on a successful critical roll,
base damage otherwise (the per-sub-hit selection in MeleeAction). -/
def dmgTier (f : Fighter) (crit : Bool) : Int :=
  if crit then (f.criticalDamage : Int) else (f.damage : Int)

/-- Source `Fighter.take_damage` applied to the entity with the given id.
Modelled from the spec: damage is subtracted from target health. -/
def Engine.applyDamage (e : Engine) (eid : Nat) (d : Int) : Engine :=
  e.updateEntityById eid (fun a =>
    { a with fighter := { a.fighter with health := a.fighter.health - d } })

/-- The slain-target block at the end of `MeleeAction.perform`: when the
health of the target is 0 or below, re-sort it to the back of the entity list,
emit the slain message (plus kill counter and experience message for a player
initiator), and have the leveler of the initiator absorb the experience drop. -/
def MeleeAction.handleSlain (e : Engine) (targetId initiatorId : Nat) : Engine :=
  let t := (e.findEntity targetId).getD default
  if t.fighter.health ≤ 0 then
    let e1 := e.moveEntityToBack targetId
    let e2 := e1.addMessage "The target has perished!"
    let e3 :=
      if initiatorId = e.player.eid then
        { e2.addMessage "You slayed the target and gained EXP!" with slayed := e2.slayed + 1 }
      else e2
    e3.updateEntityById initiatorId (fun a =>
      { a with leveler :=
          { a.leveler with experience := a.leveler.experience + t.leveler.experienceDrop } })
  else e

/-- Source `MeleeAction.perform` from actions.py.  The turn-consumed flag is `true`
on every path.  The hit roll comes first; a miss only logs (when the player
is involved).  On a hit, one double-hit roll decides whether the sub-hit body
runs once or twice (the `for` loop over `range(2 if did_double_hit else 1)`
is unrolled below); each sub-hit draws its own critical roll, applies its
damage tier, and — when neither party is the player — returns from inside
the loop right after the damage is applied.  Reading the target with no
blocking entity present would raise in Python (`target.fighter` on `None`). -/
def MeleeAction.perform (e0 : Engine) (actorId : Nat) (dx dy : Int) :
    PyResult (Engine × Bool) :=
  let initiator := (e0.findEntity actorId).getD default
  let desiredX := initiator.x + dx
  let desiredY := initiator.y + dy
  match e0.blockingEntityAt desiredX desiredY with
  | none => .error .attributeError
  | some target =>
    let isP := actorId = e0.player.eid
    let tIsP := target.eid = e0.player.eid
    let e1 := if isP then e0.recordTurn else e0
    let didHit := e1.rollHead
    let e2 := e1.rollNext
    if ¬ didHit then
      if tIsP then .ok (e2.addMessage "The attacker missed you", true)
      else if isP then .ok (e2.addMessage "You missed the target", true)
      else .ok (e2, true)
    else
      let didDouble := e2.rollHead
      let e3 := e2.rollNext
      let e4 := if didDouble ∧ isP then e3.addMessage "Double hit!" else e3
      -- sub-hit 1
      let c1 := e4.rollHead
      let e5 := e4.rollNext
      let e6 := e5.applyDamage target.eid (dmgTier initiator.fighter c1)
      if ¬ tIsP ∧ ¬ isP then .ok (e6, true)
      else
        let e7 := e6.addMessage "A hit lands"
        if didDouble then
          -- sub-hit 2
          let c2 := e7.rollHead
          let e8 := e7.rollNext
          let e9 := e8.applyDamage target.eid (dmgTier initiator.fighter c2)
          let e10 := e9.addMessage "A hit lands"
          .ok (MeleeAction.handleSlain e10 target.eid actorId, true)
        else
          .ok (MeleeAction.handleSlain e7 target.eid actorId, true)

/-- Source `BumpAction.perform` from actions.py: if a blocking entity occupies the
desired cell (and `no_hit` is off), a player bumping an `AllyAI` occupant
swaps positions with it; any other occupant is attacked via MeleeAction;
otherwise the bump resolves as a WalkAction. -/
def BumpAction.perform (e : Engine) (actorId : Nat) (dx dy : Int)
    (noHit : Bool := false) : PyResult (Engine × Bool) :=
  let actor := (e.findEntity actorId).getD default
  let desiredX := actor.x + dx
  let desiredY := actor.y + dy
  match e.blockingEntityAt desiredX desiredY with
  | some blocker =>
    if noHit then .ok (WalkAction.perform e actorId dx dy)
    else if actorId = e.player.eid ∧ blocker.ai = AIKind.allyAI then
      let e1 := e.updateEntityById actorId (fun a => { a with x := blocker.x, y := blocker.y })
      let e2 := e1.updateEntityById blocker.eid (fun a => { a with x := actor.x, y := actor.y })
      .ok (e2, true)
    else
      MeleeAction.perform e actorId dx dy
  | none => .ok (WalkAction.perform e actorId dx dy)

/-- The item search at the top of `PickUpItemAction.perform`: the first item
entity of the current floor lying at the exact cell of the player. -/
def PickUpItemAction.findItem (e : Engine) : Option Entity :=
  e.currentFloor.entities.find? (fun it =>
    it.kind = EntityKind.item && it.x = e.player.x && it.y = e.player.y)

/-- Source `PickUpItemAction.perform` from actions.py (the acting entity is the
player, which is how the explore state constructs the action): reject with a
message when no item lies underneath or the inventory has no free slot;
otherwise detach the item from the floor, add it to the inventory and set its
parent.  The turn-consumed flag is `false` on every path. -/
def PickUpItemAction.perform (e : Engine) : Engine × Bool :=
  match PickUpItemAction.findItem e with
  | none => (e.addMessage "Nothing to be picked up here", false)
  | some item =>
    if e.player.inventory.size ≥ e.player.inventory.maxSlots then
      (e.addMessage "There is not enough space in your inventory", false)
    else
      let e1 := e.removeEntityFromCurrentFloor item.eid
      let e2 := { e1 with player :=
        { e1.player with inventory := (e1.player.inventory.add_item item.eid).1 } }
      (e2.addMessage "You picked up the item", false)

/-- Source `DropItemAction.perform` from actions.py against the component.py
Inventory.  The unequip guard evaluates `inventory.is_equipped(self.item)`
when the item carries an equippable component — a method this Inventory does
not define, so that path raises `AttributeError`.  Otherwise
`inventory.remove_item(self.item)` reaches the (effective, by-index)
`remove_item` overload with an Item object, and `list.pop` raises
`TypeError`.  The floor placement below the call is therefore unreachable. -/
def DropItemAction.perform (e : Engine) (item : Entity) : PyResult (Engine × Bool) :=
  if item.hasEquippable then .error .attributeError
  else
    match e.player.inventory.remove_item (.obj item.eid) with
    | .error err => .error err
    | .ok (_, inv2) =>
      let e1 := { e with player := { e.player with inventory := inv2 } }
      let e2 := e1.modifyCurrentFloor (fun fl =>
        fl.add_entity { item with x := e.player.x, y := e.player.y })
      .ok (e2.addMessage "You dropped the item", false)

/-- Source `DescendStairsAction.perform` from actions.py: reject with a message
unless the current floor has a descending staircase and the player stands
exactly on it; on success advance the floor index, generate the next floor
when the player was on the deepest generated floor, respawn the player at the
first room of the new floor and record the turn.  The turn-consumed flag is
`false` on every path. -/
def DescendStairsAction.perform (gen : Nat → Floor) (e : Engine) : Engine × Bool :=
  match e.currentFloor.descendingStaircaseLocation with
  | none => (e.addMessage "Unable to descend here", false)
  | some (sx, sy) =>
    if e.player.x = sx ∧ e.player.y = sy then
      let newDepthReached := e.currentFloorIndex = e.deepestFloorIndex
      let e1 := { e with currentFloorIndex := e.currentFloorIndex + 1 }
      let e2 := if newDepthReached then Dungeon.generate_next_floor gen e1 else e1
      let e3 := Spawner.spawn_player e2 e2.currentFloor.first_room
      let e4 := e3.addMessage "You descend a level..."
      (e4.recordTurn, false)
    else
      (e.addMessage "Unable to descend here", false)

/-- The global `random` module stream used directly by component.py,
dungeon/floor.py and dungeon/spawner.py, as opposed to the engine-owned
seeded `RandomNumberGenerator`.  Modelled as a list of floats in [0,1)
(rationals here); `random.random()` takes the head, `random.choice` takes the
head scaled by the population size. -/
def GlobalRng : Type := List ℚ

/-- Source `random.random()`: the next float of the global stream. -/
def GlobalRng.nextFloat (g : GlobalRng) : ℚ × GlobalRng :=
  (g.headD (mkRat 0 1), List.tail g)

/-- Index selected by `random.choice` over a population of size `n` given one
stream draw: the floor of `q * n`, computed on the numerator/denominator
representation. -/
def randChoiceIdx (q : ℚ) (n : Nat) : Nat :=
  ((q.num * n).fdiv q.den).toNat % n

/-- Modelled from the spec: pathfinding.py is absent from src.
`euclidean_distance(x0,y0,x1,y1) ≤ r` decided exactly on the squares. -/
def distance_from_le (x0 y0 x1 y1 r : Int) : Bool :=
  (x1 - x0) * (x1 - x0) + (y1 - y0) * (y1 - y0) ≤ r * r

/-- Modelled from the spec: pathfinding.py is absent from src.
`bresenham_path_to` is the direct line-stepping algorithm producing the cell
sequence from (x0,y0) to (x1,y1) inclusive (classic integer Bresenham). -/
def bresenhamAux (tx ty dx dy sx sy : Int) :
    Nat → Int → Int → Int → List (Int × Int)
  | 0, x, y, _ => [(x, y)]
  | Nat.succ fuel, x, y, err =>
    if x = tx ∧ y = ty then [(x, y)]
    else
      let e2 := 2 * err
      let x2 := if e2 ≥ dy then x + sx else x
      let err1 := if e2 ≥ dy then err + dy else err
      let y2 := if e2 ≤ dx then y + sy else y
      let err2 := if e2 ≤ dx then err1 + dx else err1
      (x, y) :: bresenhamAux tx ty dx dy sx sy fuel x2 y2 err2

/-- Modelled from the spec: the straight-line path between two cells. -/
def bresenham_path_to (x0 y0 x1 y1 : Int) : List (Int × Int) :=
  let dx := (x1 - x0).natAbs
  let dy := (y1 - y0).natAbs
  let sx : Int := if x0 < x1 then 1 else -1
  let sy : Int := if y0 < y1 then 1 else -1
  bresenhamAux x1 y1 (dx : Int) (-(dy : Int)) sx sy (dx + dy + 1) x0 y0
    ((dx : Int) + (-(dy : Int)))

/-- Source `BaseAI.update_agro_status` from component.py as a pure predicate: the
actor aggroes exactly when its euclidean distance to the player is at most
`AGRO_RANGE = 8` and no tile along the straight-line path is non-walkable
(out-of-grid path cells read as non-walkable). -/
def BaseAI.computeAgro (e : Engine) (ent : Entity) (paths : List (Int × Int)) : Bool :=
  distance_from_le e.player.x e.player.y ent.x ent.y 8 &&
    ! paths.any (fun c => ! e.currentFloor.tileWalkable c.1 c.2)

/-- The eight compass directions of `WanderingAI.DIRECTIONS`, in dict
insertion order. -/
def wanderDirections : List (Int × Int) :=
  [(-1, -1), (-1, 0), (-1, 1), (0, -1), (0, 1), (1, -1), (1, 0), (1, 1)]

/-- Source `WanderingAI.perform` from component.py: recompute aggro from the path to
the player; on aggro, replace the "ai" component of the entity with a fresh
HostileEnemyAI (its `agro` field starts false) and return; otherwise draw
from the global stream and, when the draw reaches `CHANCE_TO_WALK = 0.75`,
bump one step in a direction chosen by a second global draw. -/
def WanderingAI.perform (e : Engine) (cid : Nat) (g : GlobalRng) :
    PyResult (Engine × GlobalRng) :=
  let ent := (e.findEntity cid).getD default
  let paths := bresenham_path_to ent.x ent.y e.player.x e.player.y
  let agro := BaseAI.computeAgro e ent paths
  let eU := e.updateEntityById cid (fun a => { a with agro := agro })
  if agro then
    .ok (eU.updateEntityById cid
      (fun a => { a with ai := AIKind.hostileAI, agro := false }), g)
  else
    let (q, g1) := g.nextFloat
    if q ≥ mkRat 3 4 then
      let (q2, g2) := g1.nextFloat
      let dir := wanderDirections.getD (randChoiceIdx q2 8) (-1, -1)
      match BumpAction.perform eU cid dir.1 dir.2 with
      | .ok (e1, _) => .ok (e1, g2)
      | .error err => .error err
    else
      .ok (eU, g1)

/-- Source `HostileEnemyAI.perform` from component.py: recompute aggro; on a lost
aggro, replace the "ai" component with a fresh WanderingAI and return;
otherwise take the second cell of the straight-line path (`paths.pop(1)`,
an IndexError when the path is shorter) and bump toward it. -/
def HostileEnemyAI.perform (e : Engine) (cid : Nat) : PyResult (Engine × Bool) :=
  let ent := (e.findEntity cid).getD default
  let paths := bresenham_path_to ent.x ent.y e.player.x e.player.y
  let agro := BaseAI.computeAgro e ent paths
  let eU := e.updateEntityById cid (fun a => { a with agro := agro })
  if ¬ agro then
    .ok (eU.updateEntityById cid
      (fun a => { a with ai := AIKind.wanderingAI, agro := false }), false)
  else
    match paths.get? 1 with
    | none => .error .indexError
    | some c =>
      BumpAction.perform eU cid (c.1 - ent.x) (c.2 - ent.y)

/-- Configuration of one `FloorBuilder.place_rooms` call. -/
structure GenCfg where
  floorWidth : Nat
  floorHeight : Nat
  numRooms : Nat
  minRoomWidth : Nat
  maxRoomWidth : Nat
  minRoomHeight : Nat
  maxRoomHeight : Nat
deriving DecidableEq, Repr

/-- Source `random.randint(lo, hi)` (inclusive) given one draw of the global stream
(dungeon generation draws from the global `random` module). -/
def randint (lo hi draw : Nat) : Nat := lo + draw % (hi + 1 - lo)

/-- The four `random.randint` draws building the candidate `Room` at the
head of the `place_rooms` loop, reading the global stream at index `i`. -/
def drawRoomAt (cfg : GenCfg) (stream : Nat → Nat) (i : Nat) : Room :=
  { x1 := randint 1 (cfg.floorHeight - cfg.maxRoomHeight - 1) (stream i)
    y1 := randint 1 (cfg.floorWidth - cfg.maxRoomWidth - 1) (stream (i + 1))
    width := randint cfg.minRoomWidth cfg.maxRoomWidth (stream (i + 2))
    height := randint cfg.minRoomHeight cfg.maxRoomHeight (stream (i + 3)) }

/-- Carve the room into the tile grid: rows `[x1, x2)`, columns `[y1, y2)`
become walkable floor tiles. -/
def carveRoom (tiles : List (List Bool)) (r : Room) : List (List Bool) :=
  tiles.mapIdx (fun x row =>
    if r.x1 ≤ x ∧ x < r.x2 then
      row.mapIdx (fun y t => if r.y1 ≤ y ∧ y < r.y2 then true else t)
    else row)

/-- State threaded through the `place_rooms` loop: placed rooms, tile grid,
the consecutive-failure counter `curr_iterations`, and the position in the
global random stream. -/
structure PlaceState where
  rooms : List Room
  tiles : List (List Bool)
  currIterations : Nat
  rngIdx : Nat
deriving DecidableEq, Repr

/-- Result of the loop; `fuelOut` is an artifact of the fueled embedding and
is proved unreachable for sufficient fuel. -/
inductive PlaceOutcome where
  | done (s : PlaceState)
  | fuelOut (s : PlaceState)
deriving DecidableEq, Repr

/-- Whether the candidate room intersects any already-placed room (the
`any(...)` check of the loop). -/
def candidateIntersects (room : Room) (rooms : List Room) : Bool :=
  rooms.any (fun placedRoom => room.intersectsWith placedRoom)

/-- The `while len(rooms) < num_rooms` loop of `FloorBuilder.place_rooms`:
draw a candidate room; on intersection increment `curr_iterations` and break
once it exceeds 250; on success reset `curr_iterations` to zero, carve the
room and append it. -/
def placeRoomsLoop (cfg : GenCfg) (stream : Nat → Nat) :
    Nat → PlaceState → PlaceOutcome
  | 0, s => .fuelOut s
  | Nat.succ fuel, s =>
    if s.rooms.length < cfg.numRooms then
      let room := drawRoomAt cfg stream s.rngIdx
      let s0 := { s with rngIdx := s.rngIdx + 4 }
      if candidateIntersects room s.rooms then
        let s1 := { s0 with currIterations := s0.currIterations + 1 }
        if s1.currIterations > 250 then .done s1
        else placeRoomsLoop cfg stream fuel s1
      else
        placeRoomsLoop cfg stream fuel
          { s0 with
              currIterations := 0,
              tiles := carveRoom s0.tiles room,
              rooms := s0.rooms ++ [room] }
    else .done s

/-- Source `FloorBuilder.place_walls`: the grid is all walls before rooms are cut. -/
def initialTiles (cfg : GenCfg) : List (List Bool) :=
  List.replicate cfg.floorHeight (List.replicate cfg.floorWidth false)

/-- Fuel that the termination theorem shows is always sufficient. -/
def placeRoomsFuel (cfg : GenCfg) : Nat := 252 * cfg.numRooms + 252

/-- Source `FloorBuilder.place_rooms` entered on a freshly wall-filled floor. -/
def place_rooms (cfg : GenCfg) (stream : Nat → Nat) : PlaceOutcome :=
  placeRoomsLoop cfg stream (placeRoomsFuel cfg)
    { rooms := [], tiles := initialTiles cfg, currIterations := 0, rngIdx := 0 }

/-! ### Concrete scenario states used by witnesses and counterexamples -/

/-- A 2-slot inventory that is exactly full. -/
def c4Full : Inventory := { maxSlots := 2, items := [5, 6] }

/-- A 2-slot inventory with one free slot. -/
def c4Space : Inventory := { maxSlots := 2, items := [5] }

/-- A non-equippable item (a potion) held in the player inventory. -/
def c5Potion : Entity :=
  { eid := 42, kind := EntityKind.item, x := 0, y := 0, blocking := false }

/-- Player holding the potion, standing on a small all-walkable floor. -/
def c5Engine : Engine :=
  { player :=
      { eid := 0, kind := EntityKind.player, x := 2, y := 2, blocking := true,
        fighter := { health := 100, damage := 8, criticalDamage := 16 },
        inventory := { maxSlots := 16, items := [42] } },
    floors :=
      [{ width := 6, height := 6,
         tiles := List.replicate 6 (List.replicate 6 true),
         rooms := [{ x1 := 1, y1 := 1, width := 4, height := 4 }],
         entities := [] }],
    currentFloorIndex := 0, deepestFloorIndex := 0,
    turns := 0, slayed := 0, messages := [], rolls := [] }

/-- An unsatisfiable placement configuration: every candidate room is the
same 3-by-3 rectangle at (1,1) on a 5-by-5 floor, so after the first success
every further draw intersects. -/
def c7Cfg : GenCfg :=
  { floorWidth := 5, floorHeight := 5, numRooms := 2,
    minRoomWidth := 3, maxRoomWidth := 3, minRoomHeight := 3, maxRoomHeight := 3 }

/-- A constant global random stream. -/
def c7Stream : Nat → Nat := fun _ => 0

/-- Consecutive-failure counter of a finished placement run. -/
def PlaceOutcome.currIters : PlaceOutcome → Nat
  | .done s => s.currIterations
  | .fuelOut s => s.currIterations

/-- Number of rooms placed by a finished placement run. -/
def PlaceOutcome.numPlaced : PlaceOutcome → Nat
  | .done s => s.rooms.length
  | .fuelOut s => s.rooms.length

/-- Whether the loop exited normally rather than running out of fuel. -/
def PlaceOutcome.isDone : PlaceOutcome → Bool
  | .done _ => true
  | .fuelOut _ => false

/-- The lexicographic termination measure of the placement loop. -/
def placeMeasure (cfg : GenCfg) (s : PlaceState) : Nat :=
  252 * (cfg.numRooms - s.rooms.length) + (251 - s.currIterations)

/-- A small all-walkable floor with one room and a descending staircase at
its center cell (3,3). -/
def c2FloorA : Floor :=
  { width := 6, height := 6, tiles := List.replicate 6 (List.replicate 6 true),
    rooms := [{ x1 := 1, y1 := 1, width := 4, height := 4 }],
    entities := [],
    descendingStaircaseLocation := some (3, 3) }

/-- The same floor without any staircase. -/
def c2FloorNoStair : Floor :=
  { width := 6, height := 6, tiles := List.replicate 6 (List.replicate 6 true),
    rooms := [{ x1 := 1, y1 := 1, width := 4, height := 4 }],
    entities := [] }

/-- A floor generator standing in for the FloorBuilder pipeline. -/
def c2Gen : Nat → Floor := fun _ => c2FloorA

/-- The player standing on the staircase cell. -/
def c2Player : Entity :=
  { eid := 0, kind := EntityKind.player, x := 3, y := 3, blocking := true }

/-- Player on the staircase of the deepest (only) floor. -/
def c2Engine : Engine :=
  { player := c2Player, floors := [c2FloorA],
    currentFloorIndex := 0, deepestFloorIndex := 0,
    turns := 0, slayed := 0, messages := [], rolls := [] }

/-- Player on the staircase of a floor that is not the deepest. -/
def c2EngineMid : Engine :=
  { c2Engine with floors := [c2FloorA, c2FloorA], deepestFloorIndex := 1 }

/-- Player on a floor with no descending staircase. -/
def c2EngineNoStair : Engine :=
  { c2Engine with floors := [c2FloorNoStair] }

/-- An item lying at the cell (3,3). -/
def c8Item : Entity :=
  { eid := 9, kind := EntityKind.item, x := 3, y := 3, blocking := false }

/-- Player standing on the item with an exactly-full 1-slot inventory. -/
def c8Engine : Engine :=
  { player :=
      { eid := 0, kind := EntityKind.player, x := 3, y := 3, blocking := true,
        inventory := { maxSlots := 1, items := [7] } },
    floors := [{ c2FloorA with entities := [c8Item] }],
    currentFloorIndex := 0, deepestFloorIndex := 0,
    turns := 0, slayed := 0, messages := [], rolls := [] }

/-- Player standing on the item with a free inventory slot. -/
def c9PickEngine : Engine :=
  { c8Engine with player :=
      { c8Engine.player with inventory := { maxSlots := 2, items := [7] } } }

/-- The aggro predicate exactly as the AI perform methods compute it: the
straight-line path from the acting creature to the player, fed to
`BaseAI.computeAgro`. -/
def agroOf (e : Engine) (cid : Nat) : Bool :=
  BaseAI.computeAgro e ((e.findEntity cid).getD default)
    (bresenham_path_to ((e.findEntity cid).getD default).x
      ((e.findEntity cid).getD default).y e.player.x e.player.y)

/-- A 20-by-20 all-walkable floor holding one wandering creature two cells
from the player (aggro condition holds). -/
def c10Near : Engine :=
  { player := { eid := 0, kind := EntityKind.player, x := 2, y := 2,
                blocking := true },
    floors := [{ width := 20, height := 20,
                 tiles := List.replicate 20 (List.replicate 20 true),
                 rooms := [{ x1 := 1, y1 := 1, width := 18, height := 18 }],
                 entities := [{ eid := 5, kind := EntityKind.creature,
                                x := 2, y := 4, blocking := true,
                                ai := AIKind.wanderingAI,
                                fighter := { health := 20, damage := 3,
                                             criticalDamage := 6 } }] }],
    currentFloorIndex := 0, deepestFloorIndex := 0,
    turns := 0, slayed := 0, messages := [], rolls := [] }

/-- The same state with the creature hostile and ten cells away (aggro
condition fails on distance). -/
def c10Far : Engine :=
  { c10Near with floors := [{ (c10Near.floors.getD 0 default) with
      entities := [{ eid := 5, kind := EntityKind.creature,
                     x := 2, y := 12, blocking := true,
                     ai := AIKind.hostileAI,
                     fighter := { health := 20, damage := 3,
                                  criticalDamage := 6 } }] }] }

/-- Player adjacent to a blocking hostile creature one cell south. -/
def c6Engine : Engine :=
  { player := { eid := 0, kind := EntityKind.player, x := 2, y := 2,
                blocking := true,
                fighter := { health := 100, damage := 8, criticalDamage := 16 },
                leveler := { experience := 0, experienceDrop := 0 } },
    floors := [{ width := 6, height := 6,
                 tiles := List.replicate 6 (List.replicate 6 true),
                 rooms := [{ x1 := 1, y1 := 1, width := 4, height := 4 }],
                 entities := [{ eid := 5, kind := EntityKind.creature,
                                x := 2, y := 3, blocking := true,
                                ai := AIKind.hostileAI,
                                fighter := { health := 20, damage := 3,
                                             criticalDamage := 6 },
                                leveler := { experience := 0,
                                             experienceDrop := 5 } }] }],
    currentFloorIndex := 0, deepestFloorIndex := 0,
    turns := 0, slayed := 0, messages := [],
    rolls := [true, false, false] }

/-- The hostile creature blocking the bump in `c6Engine`. -/
def c6Blocker : Entity :=
  { eid := 5, kind := EntityKind.creature, x := 2, y := 3, blocking := true,
    ai := AIKind.hostileAI,
    fighter := { health := 20, damage := 3, criticalDamage := 6 },
    leveler := { experience := 0, experienceDrop := 5 } }

/-- Whether an embedded run returned without raising. -/
def PyResult.isOk {α : Type} : PyResult α → Bool
  | .ok _ => true
  | .error _ => false

/-- The engine of a melee result (default engine on the raising path). -/
def meleeResultEngine (x : PyResult (Engine × Bool)) : Engine :=
  match x with
  | .ok (r, _) => r
  | .error _ => default

/-- Player attacking an adjacent creature with the roll stream
hit, double-hit, no-critical, critical. -/
def c3Engine : Engine :=
  { player := { eid := 0, kind := EntityKind.player, x := 2, y := 2,
                blocking := true,
                fighter := { health := 100, damage := 8, criticalDamage := 16 },
                leveler := { experience := 0, experienceDrop := 0 } },
    floors := [{ width := 6, height := 6,
                 tiles := List.replicate 6 (List.replicate 6 true),
                 rooms := [{ x1 := 1, y1 := 1, width := 4, height := 4 }],
                 entities := [{ eid := 5, kind := EntityKind.creature,
                                x := 2, y := 3, blocking := true,
                                ai := AIKind.hostileAI,
                                fighter := { health := 100, damage := 3,
                                             criticalDamage := 6 },
                                leveler := { experience := 0,
                                             experienceDrop := 5 } }] }],
    currentFloorIndex := 0, deepestFloorIndex := 0,
    turns := 0, slayed := 0, messages := [],
    rolls := [true, true, false, true] }

/-- The target creature of `c3Engine`. -/
def c3Target : Entity :=
  { eid := 5, kind := EntityKind.creature, x := 2, y := 3, blocking := true,
    ai := AIKind.hostileAI,
    fighter := { health := 100, damage := 3, criticalDamage := 6 },
    leveler := { experience := 0, experienceDrop := 5 } }

/-- Creature 1 attacking adjacent creature 2 with the player far away; the
roll stream grants a hit, a double hit and criticals. -/
def ccEngine : Engine :=
  { player := { eid := 0, kind := EntityKind.player, x := 5, y := 5,
                blocking := true,
                fighter := { health := 100, damage := 8, criticalDamage := 16 },
                leveler := { experience := 0, experienceDrop := 0 } },
    floors := [{ width := 6, height := 6,
                 tiles := List.replicate 6 (List.replicate 6 true),
                 rooms := [{ x1 := 1, y1 := 1, width := 4, height := 4 }],
                 entities := [{ eid := 1, kind := EntityKind.creature,
                                x := 2, y := 2, blocking := true,
                                ai := AIKind.wanderingAI,
                                fighter := { health := 30, damage := 3,
                                             criticalDamage := 6 },
                                leveler := { experience := 0,
                                             experienceDrop := 5 } },
                              { eid := 2, kind := EntityKind.creature,
                                x := 2, y := 3, blocking := true,
                                ai := AIKind.wanderingAI,
                                fighter := { health := 20, damage := 3,
                                             criticalDamage := 6 },
                                leveler := { experience := 0,
                                             experienceDrop := 5 } }] }],
    currentFloorIndex := 0, deepestFloorIndex := 0,
    turns := 0, slayed := 0, messages := [],
    rolls := [true, true, true, true] }

/-- Position of the entity with the given id. -/
def Engine.posOf (e : Engine) (j : Nat) : Int × Int :=
  (((e.findEntity j).getD default).x, ((e.findEntity j).getD default).y)

/-- The engine of a wandering-AI activation result. -/
def wanderResultEngine (x : PyResult (Engine × GlobalRng)) : Engine :=
  match x with
  | .ok (r, _) => r
  | .error _ => default

/-- A wandering creature at (2,2) with the player sixteen cells away (no
aggro) on an open 20-by-20 floor; the seeded combat stream is fixed. -/
def c1Engine : Engine :=
  { player := { eid := 0, kind := EntityKind.player, x := 2, y := 18,
                blocking := true },
    floors := [{ width := 20, height := 20,
                 tiles := List.replicate 20 (List.replicate 20 true),
                 rooms := [{ x1 := 1, y1 := 1, width := 18, height := 18 }],
                 entities := [{ eid := 7, kind := EntityKind.creature,
                                x := 2, y := 2, blocking := true,
                                ai := AIKind.wanderingAI,
                                fighter := { health := 20, damage := 3,
                                             criticalDamage := 6 } }] }],
    currentFloorIndex := 0, deepestFloorIndex := 0,
    turns := 0, slayed := 0, messages := [],
    rolls := [true, false, true] }

/-- One possible state of the global (OS-seeded) `random` module stream:
the walk check draws 0.9 and the direction choice draws 0. -/
def c1gA : GlobalRng := [mkRat 9 10, mkRat 0 1]

/-- Another possible state of the global stream: the walk check draws 0. -/
def c1gB : GlobalRng := [mkRat 0 1]

/-! ### Helper lemmas on the engine state -/

theorem Engine.currentFloor_modify (e : Engine) (f : Floor → Floor) :
    (e.modifyCurrentFloor f).currentFloor =
      if e.currentFloorIndex < e.floors.length then f e.currentFloor
      else e.currentFloor := by
  unfold Engine.modifyCurrentFloor Engine.currentFloor
  simp only [List.getD_eq_getElem?_getD, List.getElem?_set, if_pos rfl]
  by_cases h : e.currentFloorIndex < e.floors.length
  · simp [h]
  · simp [h, List.getElem?_eq_none (le_of_not_lt h)]

theorem find?_eid_map_update (l : List Entity) (i j : Nat)
    (f : Entity → Entity) (hf : ∀ a, (f a).eid = a.eid) :
    (l.map (fun a => if a.eid = i then f a else a)).find? (fun a => a.eid = j) =
      if i = j then (l.find? (fun a => a.eid = j)).map f
      else l.find? (fun a => a.eid = j) := by
  rw [List.find?_map]
  have hp : ((fun a => decide (a.eid = j)) ∘ fun a => if a.eid = i then f a else a)
      = fun a : Entity => decide (a.eid = j) := by
    funext a
    by_cases ha : a.eid = i
    · simp [ha, hf]
    · simp [ha]
  rw [hp]
  rcases hfind : l.find? (fun a => decide (a.eid = j)) with _ | a
  · simp [Option.map, hfind]
  · have haj : a.eid = j := by simpa using List.find?_some hfind
    by_cases hij : i = j
    · simp [Option.map, hfind, haj, hij]
    · have hna : ¬ a.eid = i := fun hc => hij (by rw [← hc, haj])
      simp [Option.map, hfind, hna, hij]

theorem find?_eid_of_mem_nodup (l : List Entity) (t : Entity)
    (ht : t ∈ l) (hnd : (l.map Entity.eid).Nodup) :
    l.find? (fun a => a.eid = t.eid) = some t := by
  induction l with
  | nil => simp at ht
  | cons h tl ih =>
    simp only [List.map_cons, List.nodup_cons] at hnd
    rcases List.mem_cons.mp ht with h1 | h1
    · subst h1; simp [List.find?_cons_of_pos]
    · have hne : ¬ h.eid = t.eid := by
        intro hc
        exact hnd.1 (hc ▸ (List.mem_map.mpr ⟨t, h1, rfl⟩))
      rw [List.find?_cons_of_neg]
      · exact ih h1 hnd.2
      · simp [hne]

theorem find?_eid_erase_append (l : List Entity) (t : Entity) (j : Nat)
    (ht : t ∈ l) (hnd : (l.map Entity.eid).Nodup) :
    (l.erase t ++ [t]).find? (fun a => a.eid = j) =
      l.find? (fun a => a.eid = j) := by
  induction l with
  | nil => simp at ht
  | cons h tl ih =>
    simp only [List.map_cons, List.nodup_cons] at hnd
    by_cases hht : h = t
    · subst hht
      rw [List.erase_cons_head]
      by_cases hj : h.eid = j
      · have hnone : tl.find? (fun a => a.eid = j) = none := by
          rw [List.find?_eq_none]
          intro x hx hc
          have hx2 : x.eid = h.eid := by
            have := of_decide_eq_true hc
            rw [this, hj]
          exact hnd.1 (hx2 ▸ (List.mem_map.mpr ⟨x, hx, rfl⟩))
        rw [List.find?_append, hnone, List.find?_cons_of_pos]
        · simp [List.find?_cons_of_pos, hj]
        · simp [hj]
      · rw [List.find?_append, List.find?_cons_of_neg, List.find?_cons_of_neg]
        · rcases hfind : tl.find? (fun a => a.eid = j) with _ | a
          · simp [List.find?_cons_of_neg, hj]
          · simp
        · simp [hj]
        · simp [hj]
    · have hmem : t ∈ tl := by
        rcases List.mem_cons.mp ht with h1 | h1
        · exact absurd h1.symm hht
        · exact h1
      rw [List.erase_cons_tail]
      · by_cases hj : h.eid = j
        · rw [List.cons_append, List.find?_cons_of_pos, List.find?_cons_of_pos]
          · simp [hj]
          · simp [hj]
        · rw [List.cons_append, List.find?_cons_of_neg, List.find?_cons_of_neg]
          · exact ih hmem hnd.2
          · simp [hj]
          · simp [hj]
      · simp [beq_iff_eq]
        intro hc; exact hht hc

theorem Engine.player_modify (e : Engine) (f : Floor → Floor) :
    (e.modifyCurrentFloor f).player = e.player := rfl

theorem Engine.rolls_modify (e : Engine) (f : Floor → Floor) :
    (e.modifyCurrentFloor f).rolls = e.rolls := rfl

theorem Engine.currentFloor_setPlayer (e : Engine) (p : Entity) :
    ({ e with player := p } : Engine).currentFloor = e.currentFloor := rfl

theorem Engine.currentFloor_default_entities (e : Engine)
    (hlen : ¬ e.currentFloorIndex < e.floors.length) :
    e.currentFloor.entities = [] := by
  unfold Engine.currentFloor
  rw [List.getD_eq_getElem?_getD, List.getElem?_eq_none (le_of_not_lt hlen)]
  rfl

theorem Engine.findEntity_update (e : Engine) (i j : Nat) (f : Entity → Entity)
    (hf : ∀ a, (f a).eid = a.eid) :
    (e.updateEntityById i f).findEntity j =
      if i = j then (e.findEntity j).map f else e.findEntity j := by
  unfold Engine.updateEntityById Engine.findEntity
  by_cases hpl : e.player.eid = i
  · simp only [if_pos hpl, Engine.currentFloor_setPlayer]
    by_cases hij : i = j
    · subst hij
      simp [hf, hpl]
    · have h1 : ¬ (f e.player).eid = j := by rw [hf, hpl]; exact hij
      have hpj : ¬ e.player.eid = j := by rw [hpl]; exact hij
      simp [h1, hpj, hij]
  · simp only [if_neg hpl, Engine.player_modify, Engine.currentFloor_modify]
    by_cases hlen : e.currentFloorIndex < e.floors.length
    · simp only [if_pos hlen]
      by_cases hpj : e.player.eid = j
      · have hij : ¬ i = j := fun hc => hpl (hc ▸ hpj)
        simp [hpj, hij]
      · simp only [if_pos hpj, if_neg hpj]
        rw [find?_eid_map_update _ _ _ _ hf]
    · simp only [if_neg hlen]
      by_cases hpj : e.player.eid = j
      · have hij : ¬ i = j := fun hc => hpl (hc ▸ hpj)
        simp [hpj, hij]
      · simp only [if_neg hpj]
        rw [Engine.currentFloor_default_entities e hlen]
        simp

theorem Engine.rolls_update (e : Engine) (i : Nat) (f : Entity → Entity) :
    (e.updateEntityById i f).rolls = e.rolls := by
  unfold Engine.updateEntityById
  split <;> rfl

theorem Engine.healthOf_update_preserve (e : Engine) (i j : Nat)
    (f : Entity → Entity) (hf : ∀ a, (f a).eid = a.eid)
    (hh : ∀ a, (f a).fighter.health = a.fighter.health) :
    (e.updateEntityById i f).healthOf j = e.healthOf j := by
  unfold Engine.healthOf
  rw [Engine.findEntity_update e i j f hf]
  split
  · rcases e.findEntity j with _ | a <;> simp [hh]
  · rfl

theorem Engine.healthOf_applyDamage_self (e : Engine) (i : Nat) (d : Int)
    (a : Entity) (hs : e.findEntity i = some a) :
    (e.applyDamage i d).healthOf i = a.fighter.health - d := by
  unfold Engine.applyDamage Engine.healthOf
  rw [Engine.findEntity_update]
  · simp [hs]
  · intro b; rfl

theorem Engine.posMap_addMessage (e : Engine) (m : String) :
    (e.addMessage m).posMap = e.posMap := rfl

theorem Engine.posMap_recordTurn (e : Engine) :
    e.recordTurn.posMap = e.posMap := rfl

theorem Engine.posMap_rollNext (e : Engine) :
    e.rollNext.posMap = e.posMap := rfl

theorem Engine.posMap_setSlayed (e : Engine) (n : Nat) :
    ({ e with slayed := n } : Engine).posMap = e.posMap := rfl

theorem Engine.posMap_update (e : Engine) (i : Nat) (f : Entity → Entity)
    (hf : ∀ a, (f a).eid = a.eid ∧ (f a).x = a.x ∧ (f a).y = a.y) :
    (e.updateEntityById i f).posMap = e.posMap := by
  unfold Engine.updateEntityById Engine.posMap
  by_cases hpl : e.player.eid = i
  · simp only [if_pos hpl, Engine.currentFloor_setPlayer]
    rcases hf e.player with ⟨h1, h2, h3⟩
    rw [h1, h2, h3]
  · simp only [if_neg hpl, Engine.player_modify, Engine.currentFloor_modify]
    by_cases hlen : e.currentFloorIndex < e.floors.length
    · simp only [if_pos hlen, List.map_map]
      congr 1
      apply List.map_congr_left
      intro a _
      by_cases ha : a.eid = i
      · rcases hf a with ⟨h1, h2, h3⟩
        simp [ha, h1, h2, h3]
      · simp [ha]
    · simp [hlen]

theorem Engine.healthOf_addMessage (e : Engine) (m : String) (j : Nat) :
    (e.addMessage m).healthOf j = e.healthOf j := rfl

theorem Engine.healthOf_recordTurn (e : Engine) (j : Nat) :
    e.recordTurn.healthOf j = e.healthOf j := rfl

theorem Engine.healthOf_rollNext (e : Engine) (j : Nat) :
    e.rollNext.healthOf j = e.healthOf j := rfl

theorem Engine.healthOf_setSlayed (e : Engine) (n : Nat) (j : Nat) :
    ({ e with slayed := n } : Engine).healthOf j = e.healthOf j := rfl

theorem List.perm_erase_append {t : Entity} {l : List Entity} (hmem : t ∈ l) :
    (l.erase t ++ [t]).Perm l :=
  (List.perm_append_singleton _ _).trans (List.perm_cons_erase hmem).symm

theorem Engine.posMap_moveEntityToBack (e : Engine) (i : Nat) :
    (e.moveEntityToBack i).posMap.Perm e.posMap := by
  unfold Engine.moveEntityToBack Engine.posMap
  simp only [Engine.player_modify, Engine.currentFloor_modify]
  by_cases hlen : e.currentFloorIndex < e.floors.length
  · simp only [if_pos hlen]
    rcases hfind : e.currentFloor.entities.find? (fun a => a.eid = i) with _ | t
    · rw [hfind]
    · rw [hfind]
      have hmem : t ∈ e.currentFloor.entities := List.mem_of_find?_eq_some hfind
      exact List.Perm.cons _ (List.Perm.map _ (List.perm_erase_append hmem))
  · simp [hlen]

theorem Engine.healthOf_moveEntityToBack (e : Engine) (i j : Nat)
    (hwf : e.wfIds) :
    (e.moveEntityToBack i).healthOf j = e.healthOf j := by
  unfold Engine.moveEntityToBack Engine.healthOf Engine.findEntity
  simp only [Engine.player_modify, Engine.currentFloor_modify]
  by_cases hpj : e.player.eid = j
  · simp [hpj]
  · simp only [if_neg hpj]
    by_cases hlen : e.currentFloorIndex < e.floors.length
    · simp only [if_pos hlen]
      rcases hfind : e.currentFloor.entities.find? (fun a => a.eid = i) with _ | t
      · rw [hfind]
      · rw [hfind]
        have hmem : t ∈ e.currentFloor.entities := List.mem_of_find?_eq_some hfind
        rw [show ({ e.currentFloor with
            entities := e.currentFloor.entities.erase t ++ [t] } : Floor).entities
            = e.currentFloor.entities.erase t ++ [t] from rfl]
        rw [find?_eid_erase_append _ _ _ hmem hwf.1]
    · simp [hlen]

theorem Engine.wf_update (e : Engine) (i : Nat) (f : Entity → Entity)
    (hf : ∀ a, (f a).eid = a.eid) (hwf : e.wfIds) :
    (e.updateEntityById i f).wfIds := by
  unfold Engine.updateEntityById Engine.wfIds
  by_cases hpl : e.player.eid = i
  · simp only [if_pos hpl, Engine.currentFloor_setPlayer]
    exact ⟨hwf.1, by rw [hf]; exact hwf.2⟩
  · simp only [if_neg hpl, Engine.player_modify, Engine.currentFloor_modify]
    by_cases hlen : e.currentFloorIndex < e.floors.length
    · simp only [if_pos hlen, List.map_map]
      have hmap : (e.currentFloor.entities.map
          (Entity.eid ∘ fun a => if a.eid = i then f a else a)) =
          e.currentFloor.entities.map Entity.eid := by
        apply List.map_congr_left
        intro a _
        by_cases ha : a.eid = i
        · simp [ha, hf]
        · simp [ha]
      rw [hmap]
      exact hwf
    · simp only [if_neg hlen]
      exact hwf

theorem Engine.wf_moveEntityToBack (e : Engine) (i : Nat) (hwf : e.wfIds) :
    (e.moveEntityToBack i).wfIds := by
  unfold Engine.moveEntityToBack Engine.wfIds
  simp only [Engine.player_modify, Engine.currentFloor_modify]
  by_cases hlen : e.currentFloorIndex < e.floors.length
  · simp only [if_pos hlen]
    rcases hfind : e.currentFloor.entities.find? (fun a => a.eid = i) with _ | t
    · rw [hfind]
      exact hwf
    · rw [hfind]
      have hmem : t ∈ e.currentFloor.entities := List.mem_of_find?_eq_some hfind
      have hperm2 := (List.perm_erase_append hmem).map Entity.eid
      constructor
      · exact hperm2.nodup_iff.mpr hwf.1
      · intro hc
        exact hwf.2 (hperm2.subset hc)
  · simp only [if_neg hlen]
    exact hwf

theorem Engine.findEntity_of_blocking (e : Engine) (x y : Int) (t : Entity)
    (hwf : e.wfIds) (hb : e.blockingEntityAt x y = some t) :
    e.findEntity t.eid = some t := by
  unfold Engine.blockingEntityAt at hb
  unfold Engine.findEntity
  by_cases hp : e.player.x = x ∧ e.player.y = y ∧ e.player.blocking
  · rw [if_pos hp] at hb
    cases hb
    simp
  · rw [if_neg hp] at hb
    have hmem : t ∈ e.currentFloor.entities := List.mem_of_find?_eq_some hb
    have heq : t.eid = t.eid := rfl
    have hne : ¬ e.player.eid = t.eid := by
      intro hc
      exact hwf.2 (hc ▸ List.mem_map.mpr ⟨t, hmem, rfl⟩)
    rw [if_neg hne]
    exact find?_eid_of_mem_nodup _ _ hmem hwf.1

/-! ### Inventory capacity lemmas -/

theorem pyListPop_int (xs : List Nat) (i : Int) :
    pyListPop xs (.int i) = .error .indexError ∨
    ∃ v rest, pyListPop xs (.int i) = .ok (v, rest) ∧ rest.length + 1 = xs.length := by
  unfold pyListPop
  simp only
  set j : Int := if i < 0 then i + xs.length else i with hj
  by_cases h : 0 ≤ j ∧ j < (xs.length : Int)
  · rw [if_pos h]
    right
    refine ⟨_, _, rfl, ?_⟩
    rw [List.length_append, List.length_take, List.length_drop]
    omega
  · rw [if_neg h]
    left
    rfl

theorem Inventory.applyOp_remove (inv : Inventory) (i : Int) :
    (inv.applyOp (.removeI i)).maxSlots = inv.maxSlots ∧
      (inv.applyOp (.removeI i)).size ≤ inv.size := by
  unfold Inventory.applyOp Inventory.remove_item
  simp only
  rcases pyListPop_int inv.items i with h | ⟨v, rest, h, hlen⟩
  · rw [h]
    exact ⟨rfl, le_refl _⟩
  · rw [h]
    refine ⟨rfl, ?_⟩
    simp only [Inventory.size]
    omega

theorem Inventory.applyOp_add (inv : Inventory) (it : Nat)
    (h : inv.size ≤ inv.maxSlots) :
    (inv.applyOp (.addI it)).maxSlots = inv.maxSlots ∧
      (inv.applyOp (.addI it)).size ≤ inv.maxSlots := by
  unfold Inventory.applyOp Inventory.add_item
  simp only
  by_cases hfull : inv.size ≥ inv.maxSlots
  · rw [if_pos hfull]
    exact ⟨rfl, h⟩
  · rw [if_neg hfull]
    refine ⟨rfl, ?_⟩
    simp only [Inventory.size, List.length_append, List.length_cons,
      List.length_nil] at *
    omega

theorem Inventory.applyOp_maxSlots (inv : Inventory) (op : InvOp)
    (h : inv.size ≤ inv.maxSlots) :
    (inv.applyOp op).maxSlots = inv.maxSlots := by
  rcases op with it | i
  · exact (Inventory.applyOp_add inv it h).1
  · exact (Inventory.applyOp_remove inv i).1

theorem Inventory.applyOp_size_le (inv : Inventory) (op : InvOp)
    (h : inv.size ≤ inv.maxSlots) : (inv.applyOp op).size ≤ inv.maxSlots := by
  rcases op with it | i
  · exact (Inventory.applyOp_add inv it h).2
  · exact le_trans (Inventory.applyOp_remove inv i).2 h

theorem Inventory.applyOps_size_le (inv : Inventory) (ops : List InvOp)
    (h : inv.size ≤ inv.maxSlots) :
    (inv.applyOps ops).size ≤ (inv.applyOps ops).maxSlots ∧
      (inv.applyOps ops).maxSlots = inv.maxSlots := by
  induction ops generalizing inv with
  | nil => exact ⟨h, rfl⟩
  | cons op rest ih =>
    have h1 := Inventory.applyOp_size_le inv op h
    have h2 := Inventory.applyOp_maxSlots inv op h
    have := ih (inv.applyOp op) (h2 ▸ h1)
    unfold Inventory.applyOps at *
    simp only [List.foldl_cons]
    exact ⟨this.1, this.2.trans h2⟩

/-! ### Claim theorems -/

/-- C4 (corrected).  For every inventory with `size ≤ max_slots` and every
finite sequence of add/remove operations, `size ≤ max_slots` holds after
every prefix of the sequence; and `add_item` on a full inventory
(`size = max_slots`) leaves the item list unchanged and returns `None` — the
very same value a successful add returns, so the unchanged list, not the
return value, is the only failure signal (the claim about "returns a
failure signal" does not hold, see the counterexample). -/
theorem C4_inventory_invariant (inv : Inventory) (ops : List InvOp)
    (hstart : inv.size ≤ inv.maxSlots) :
    (∀ p q : List InvOp, ops = p ++ q → (inv.applyOps p).size ≤ inv.maxSlots)
    ∧ (∀ it, inv.size = inv.maxSlots →
        (inv.add_item it).1 = inv ∧ (inv.add_item it).2 = none) := by
  constructor
  · intro p q hpq
    have := Inventory.applyOps_size_le inv p hstart
    rw [← this.2]
    exact this.1
  · intro it hfull
    constructor
    · unfold Inventory.add_item
      rw [if_pos (le_of_eq hfull.symm)]
    · unfold Inventory.add_item
      split <;> rfl

/-- Witness for C4 at a concrete inventory and operation sequence. -/
theorem C4_inventory_invariant_witness :
    ((Inventory.applyOps { maxSlots := 2, items := [] }
        [InvOp.addI 1, InvOp.addI 2]).size ≤ 2)
    ∧ (c4Full.add_item 9).1 = c4Full := by
  have h := C4_inventory_invariant { maxSlots := 2, items := [] }
    [InvOp.addI 1, InvOp.addI 2] (by decide)
  have h2 := C4_inventory_invariant c4Full [] (by decide)
  exact ⟨h.1 [InvOp.addI 1, InvOp.addI 2] [] rfl, (h2.2 9 (by decide)).1⟩

/-- C4 counterexample.  The claim says `add_item` on a full inventory
"returns a failure signal"; in the code the method returns `None` on every
path, so the value returned for the rejected add on the full inventory is
identical to the value returned for a successful add — there is no failure
signal in the return value (the no-op on the list itself does hold). -/
theorem C4_counterexample :
    (c4Full.add_item 99).2 = (c4Space.add_item 99).2
    ∧ (c4Full.add_item 99).1.items = c4Full.items
    ∧ ¬ (c4Space.add_item 99).1.items = c4Space.items := by decide

/-- C5 (code bug).  Dropping a held, non-equippable item does not detach it
from the inventory and place it on the floor: `DropItemAction.perform` calls
`inventory.remove_item(self.item)`, but in component.py the second
`remove_item` definition (remove by integer index) shadows the first (remove
by value), so `list.pop` receives an Item object and raises `TypeError`; no
state is changed and no item reaches the floor. -/
theorem C5_drop_raises_type_error :
    DropItemAction.perform c5Engine c5Potion = .error PyErr.typeError := by
  decide

theorem placeRoomsLoop_done (cfg : GenCfg) (stream : Nat → Nat) :
    ∀ fuel s, placeMeasure cfg s < fuel →
      s.currIterations ≤ 250 → s.rooms.length ≤ cfg.numRooms →
      ∃ s2, placeRoomsLoop cfg stream fuel s = .done s2 ∧
        (s2.rooms.length = cfg.numRooms ∨
          (s2.currIterations = 251 ∧ s2.rooms.length < cfg.numRooms)) := by
  intro fuel
  induction fuel with
  | zero =>
    intro s hm _ _
    exact absurd hm (Nat.not_lt_zero _)
  | succ fuel ih =>
    intro s hm hiter hrooms
    rw [placeRoomsLoop]
    by_cases hlt : s.rooms.length < cfg.numRooms
    · rw [if_pos hlt]
      by_cases hint : candidateIntersects (drawRoomAt cfg stream s.rngIdx) s.rooms
      · simp only [hint, if_true]
        by_cases hbreak : s.currIterations + 1 > 250
        · rw [if_pos hbreak]
          refine ⟨_, rfl, Or.inr ⟨?_, hlt⟩⟩
          simp only
          omega
        · rw [if_neg hbreak]
          have hm2 : placeMeasure cfg
              { s with rngIdx := s.rngIdx + 4,
                       currIterations := s.currIterations + 1 } < fuel := by
            simp only [placeMeasure] at hm ⊢
            omega
          exact ih _ hm2 (show s.currIterations + 1 ≤ 250 by omega) hrooms
      · simp only [hint, if_false]
        have hm2 : placeMeasure cfg
            { rooms := s.rooms ++ [drawRoomAt cfg stream s.rngIdx],
              tiles := carveRoom s.tiles (drawRoomAt cfg stream s.rngIdx),
              currIterations := 0, rngIdx := s.rngIdx + 4 } < fuel := by
          simp only [placeMeasure, List.length_append, List.length_cons,
            List.length_nil] at hm ⊢
          omega
        have := ih _ hm2 (show (0 : Nat) ≤ 250 by omega)
          (show (s.rooms ++ [drawRoomAt cfg stream s.rngIdx]).length ≤ cfg.numRooms by
            simp only [List.length_append, List.length_cons, List.length_nil]
            omega)
        simpa using this
    · rw [if_neg hlt]
      exact ⟨s, rfl, Or.inl (le_antisymm hrooms (le_of_not_lt hlt))⟩

/-- C7 (corrected).  Room placement always terminates: for every
configuration (including unsatisfiable ones) and every random stream, the
loop exits normally within the allotted fuel, stopping either with the
requested number of rooms placed or after exactly 251 consecutive failed
placement attempts — the source breaks only once `curr_iterations`
*exceeds* 250, so a run can accumulate 251 consecutive failures, one more
than the bound the claim states (see the counterexample); every successful
(non-intersecting) placement resets the consecutive-failure counter to
zero (second conjunct). -/
theorem C7_place_rooms_terminates (cfg : GenCfg) (stream : Nat → Nat) :
    (∃ s, place_rooms cfg stream = .done s ∧
      (s.rooms.length = cfg.numRooms ∨
        (s.currIterations = 251 ∧ s.rooms.length < cfg.numRooms)))
    ∧ (∀ fuel s, s.rooms.length < cfg.numRooms →
        candidateIntersects (drawRoomAt cfg stream s.rngIdx) s.rooms = false →
        placeRoomsLoop cfg stream (fuel + 1) s =
          placeRoomsLoop cfg stream fuel
            { rooms := s.rooms ++ [drawRoomAt cfg stream s.rngIdx],
              tiles := carveRoom s.tiles (drawRoomAt cfg stream s.rngIdx),
              currIterations := 0,
              rngIdx := s.rngIdx + 4 }) := by
  constructor
  · unfold place_rooms
    apply placeRoomsLoop_done cfg stream (placeRoomsFuel cfg)
    · simp only [placeMeasure, placeRoomsFuel, List.length_nil, Nat.sub_zero]
      omega
    · simp
    · simp
  · intro fuel s hlt hnint
    rw [placeRoomsLoop]
    rw [if_pos hlt]
    simp [hnint]

/-- Witness for C7 at a concrete configuration, stream and loop state. -/
theorem C7_place_rooms_terminates_witness :
    placeRoomsLoop c7Cfg c7Stream 10
        { rooms := [], tiles := initialTiles c7Cfg,
          currIterations := 0, rngIdx := 0 } =
      placeRoomsLoop c7Cfg c7Stream 9
        { rooms := [drawRoomAt c7Cfg c7Stream 0],
          tiles := carveRoom (initialTiles c7Cfg) (drawRoomAt c7Cfg c7Stream 0),
          currIterations := 0, rngIdx := 4 } := by
  have h := (C7_place_rooms_terminates c7Cfg c7Stream).2 9
    { rooms := [], tiles := initialTiles c7Cfg, currIterations := 0, rngIdx := 0 }
    (by decide) (by decide)
  simpa using h

set_option maxRecDepth 4000 in
/-- C7 counterexample.  With an unsatisfiable configuration (every candidate
is the same room) the run stops only after 251 consecutive failed placement
attempts — more than the "within 250 consecutive failed attempts" bound the
claim states: the counter increments on the 251st consecutive failure before
the `> 250` break fires. -/
theorem C7_counterexample :
    (place_rooms c7Cfg c7Stream).isDone = true ∧
    (place_rooms c7Cfg c7Stream).currIters = 251 ∧
    (place_rooms c7Cfg c7Stream).numPlaced = 1 := by
  refine ⟨?_, ?_, ?_⟩ <;> decide

/-- C2 (confirmed).  DescendStairsAction is a no-op that only appends a
rejection message (no other state change, no turn recorded) unless the
current floor has a descending staircase whose cell exactly equals the
position of the player; on success it increments `current_floor_index` by one and
triggers generation of a new floor (appending one floor and advancing the
deepest index) precisely when the player was on the deepest generated floor,
leaving the floor list and deepest index unchanged otherwise. -/
theorem C2_descend_stairs (gen : Nat → Floor) (e : Engine) :
    (e.currentFloor.descendingStaircaseLocation = none →
      DescendStairsAction.perform gen e =
        (e.addMessage "Unable to descend here", false))
    ∧ (∀ sx sy, e.currentFloor.descendingStaircaseLocation = some (sx, sy) →
        ¬ (e.player.x = sx ∧ e.player.y = sy) →
        DescendStairsAction.perform gen e =
          (e.addMessage "Unable to descend here", false))
    ∧ (∀ sx sy, e.currentFloor.descendingStaircaseLocation = some (sx, sy) →
        (e.player.x = sx ∧ e.player.y = sy) →
        (DescendStairsAction.perform gen e).1.currentFloorIndex
            = e.currentFloorIndex + 1
        ∧ (e.currentFloorIndex = e.deepestFloorIndex →
            (DescendStairsAction.perform gen e).1.floors
                = e.floors ++ [gen (e.deepestFloorIndex + 1)]
            ∧ (DescendStairsAction.perform gen e).1.deepestFloorIndex
                = e.deepestFloorIndex + 1)
        ∧ (¬ e.currentFloorIndex = e.deepestFloorIndex →
            (DescendStairsAction.perform gen e).1.floors = e.floors
            ∧ (DescendStairsAction.perform gen e).1.deepestFloorIndex
                = e.deepestFloorIndex)) := by
  refine ⟨?_, ?_, ?_⟩
  · intro hnone
    unfold DescendStairsAction.perform
    rw [hnone]
  · intro sx sy hsome hnot
    unfold DescendStairsAction.perform
    rw [hsome]
    simp only
    rw [if_neg hnot]
  · intro sx sy hsome hpos
    unfold DescendStairsAction.perform
    rw [hsome]
    simp only
    rw [if_pos hpos]
    by_cases hd : e.currentFloorIndex = e.deepestFloorIndex
    · rw [if_pos hd]
      exact ⟨rfl, fun _ => ⟨rfl, rfl⟩, fun hc => absurd hd hc⟩
    · rw [if_neg hd]
      exact ⟨rfl, fun hc => absurd hc hd, fun _ => ⟨rfl, rfl⟩⟩

/-- Witness for C2: a rejected descend on a staircase-less floor, a descend
from the deepest floor that generates a new floor, and a descend from a
non-deepest floor that does not. -/
theorem C2_descend_stairs_witness :
    DescendStairsAction.perform c2Gen c2EngineNoStair
        = (c2EngineNoStair.addMessage "Unable to descend here", false)
    ∧ (DescendStairsAction.perform c2Gen c2Engine).1.floors
        = c2Engine.floors ++ [c2Gen 1]
    ∧ (DescendStairsAction.perform c2Gen c2Engine).1.currentFloorIndex = 1
    ∧ (DescendStairsAction.perform c2Gen c2EngineMid).1.floors
        = c2EngineMid.floors
    ∧ (DescendStairsAction.perform c2Gen c2EngineMid).1.deepestFloorIndex = 1 := by
  refine ⟨?_, ?_, ?_, ?_, ?_⟩
  · exact (C2_descend_stairs c2Gen c2EngineNoStair).1 (by decide)
  · exact ((C2_descend_stairs c2Gen c2Engine).2.2 3 3 (by decide) (by decide)).2.1
      (by decide) |>.1
  · exact ((C2_descend_stairs c2Gen c2Engine).2.2 3 3 (by decide) (by decide)).1
  · exact ((C2_descend_stairs c2Gen c2EngineMid).2.2 3 3 (by decide) (by decide)).2.2
      (by decide) |>.1
  · have h := ((C2_descend_stairs c2Gen c2EngineMid).2.2 3 3 (by decide)
      (by decide)).2.2 (by decide)
    exact h.2

/-- C8 (confirmed).  PickUp with an exactly-full inventory while an item lies
at the cell of the player only appends the rejection message: the returned state
is the input state with one message appended, so the entity list of the floor and
the inventory are both exactly unchanged, and the turn-consumed flag is
false. -/
theorem C8_pickup_full_frame (e : Engine) (item : Entity)
    (hfind : PickUpItemAction.findItem e = some item)
    (hfull : e.player.inventory.size = e.player.inventory.maxSlots) :
    PickUpItemAction.perform e
        = (e.addMessage "There is not enough space in your inventory", false)
    ∧ (PickUpItemAction.perform e).1.currentFloor.entities
        = e.currentFloor.entities
    ∧ (PickUpItemAction.perform e).1.player.inventory = e.player.inventory
    ∧ (PickUpItemAction.perform e).2 = false := by
  have hmain : PickUpItemAction.perform e
      = (e.addMessage "There is not enough space in your inventory", false) := by
    unfold PickUpItemAction.perform
    rw [hfind]
    simp only
    rw [if_pos (le_of_eq hfull.symm)]
  refine ⟨hmain, ?_, ?_, ?_⟩ <;> rw [hmain] <;> rfl

/-- Witness for C8 at a concrete engine with a full inventory and an item
underfoot. -/
theorem C8_pickup_full_frame_witness :
    PickUpItemAction.perform c8Engine
        = (c8Engine.addMessage "There is not enough space in your inventory",
            false)
    ∧ (PickUpItemAction.perform c8Engine).1.currentFloor.entities
        = c8Engine.currentFloor.entities := by
  have h := C8_pickup_full_frame c8Engine c8Item (by decide) (by decide)
  exact ⟨h.1, h.2.1⟩

/-- C9 (corrected).  Every resolution function returns a boolean
turn-consumed signal and rejected intents return false, but — contrary to the
claim — a successful PickUp and a successful Descend also return false (their
`turnable` flag is initialised to false and never set); a successful Descend
still increments the persistent turn counter, and a successful Walk returns
true. -/
theorem C9_turn_signals (e : Engine) (gen : Nat → Floor) (aid : Nat)
    (dx dy : Int) :
    (∀ item, PickUpItemAction.findItem e = some item →
      e.player.inventory.size < e.player.inventory.maxSlots →
      (PickUpItemAction.perform e).2 = false)
    ∧ (PickUpItemAction.findItem e = none →
        (PickUpItemAction.perform e).2 = false)
    ∧ (∀ sx sy, e.currentFloor.descendingStaircaseLocation = some (sx, sy) →
        (e.player.x = sx ∧ e.player.y = sy) →
        (DescendStairsAction.perform gen e).2 = false
        ∧ (DescendStairsAction.perform gen e).1.turns = e.turns + 1)
    ∧ (e.currentFloor.descendingStaircaseLocation = none →
        (DescendStairsAction.perform gen e).2 = false)
    ∧ (¬ (((e.findEntity aid).getD default).x + dx
            > (e.currentFloor.height : Int) - 1
          ∨ ((e.findEntity aid).getD default).x + dx < 0
          ∨ ((e.findEntity aid).getD default).y + dy
            > (e.currentFloor.width : Int) - 1
          ∨ ((e.findEntity aid).getD default).y + dy < 0) →
        e.currentFloor.tileWalkable (((e.findEntity aid).getD default).x + dx)
            (((e.findEntity aid).getD default).y + dy) = true →
        e.blockingEntityAt (((e.findEntity aid).getD default).x + dx)
            (((e.findEntity aid).getD default).y + dy) = none →
        (WalkAction.perform e aid dx dy).2 = true) := by
  refine ⟨?_, ?_, ?_, ?_, ?_⟩
  · intro item hfind hlt
    unfold PickUpItemAction.perform
    rw [hfind]
    simp only
    rw [if_neg (not_le.mpr hlt)]
  · intro hnone
    unfold PickUpItemAction.perform
    rw [hnone]
  · intro sx sy hsome hpos
    unfold DescendStairsAction.perform
    rw [hsome]
    simp only
    rw [if_pos hpos]
    by_cases hd : e.currentFloorIndex = e.deepestFloorIndex
    · rw [if_pos hd]
      exact ⟨rfl, rfl⟩
    · rw [if_neg hd]
      exact ⟨rfl, rfl⟩
  · intro hnone
    unfold DescendStairsAction.perform
    rw [hnone]
  · intro hbounds hwalk hblock
    unfold WalkAction.perform
    simp only
    rw [if_neg hbounds]
    rw [if_neg (by simp [hwalk])]
    rw [if_neg (by simp [hblock])]

/-- Witness for C9 at concrete engines: a successful pickup, a rejected
pickup, a successful descend, a rejected descend and a successful walk. -/
theorem C9_turn_signals_witness :
    (PickUpItemAction.perform c9PickEngine).2 = false
    ∧ (PickUpItemAction.perform c2Engine).2 = false
    ∧ (DescendStairsAction.perform c2Gen c2Engine).2 = false
    ∧ (DescendStairsAction.perform c2Gen c2EngineNoStair).2 = false
    ∧ (WalkAction.perform c2Engine 0 1 0).2 = true := by
  refine ⟨?_, ?_, ?_, ?_, ?_⟩
  · exact (C9_turn_signals c9PickEngine c2Gen 0 1 0).1 c8Item (by decide)
      (by decide)
  · exact (C9_turn_signals c2Engine c2Gen 0 1 0).2.1 (by decide)
  · exact ((C9_turn_signals c2Engine c2Gen 0 1 0).2.2.1 3 3 (by decide)
      (by decide)).1
  · exact (C9_turn_signals c2EngineNoStair c2Gen 0 1 0).2.2.2.1 (by decide)
  · exact (C9_turn_signals c2Engine c2Gen 0 1 0).2.2.2.2 (by decide) (by decide)
      (by decide)

/-- C9 counterexample.  A Descend that completes (the floor index advances
and the turn counter is incremented) still returns a turn-consumed flag of
false, where the claim requires true; a completed PickUp (the item moves from
the floor into the inventory) also returns false. -/
theorem C9_counterexample :
    (DescendStairsAction.perform c2Gen c2Engine).1.currentFloorIndex
        = c2Engine.currentFloorIndex + 1
    ∧ (DescendStairsAction.perform c2Gen c2Engine).2 = false
    ∧ (PickUpItemAction.perform c9PickEngine).1.player.inventory.items = [7, 9]
    ∧ (PickUpItemAction.perform c9PickEngine).1.currentFloor.entities = []
    ∧ (PickUpItemAction.perform c9PickEngine).2 = false := by
  refine ⟨?_, ?_, ?_, ?_, ?_⟩ <;> decide

theorem Engine.modify_oob (e : Engine) (f : Floor → Floor)
    (hlen : ¬ e.currentFloorIndex < e.floors.length) :
    e.modifyCurrentFloor f = e := by
  unfold Engine.modifyCurrentFloor
  rw [List.set_eq_of_length_le (le_of_not_lt hlen)]

theorem Engine.modify_def (e : Engine) (f : Floor → Floor) :
    e.modifyCurrentFloor f
      = { e with floors :=
            e.floors.set e.currentFloorIndex (f e.currentFloor) } := rfl

theorem Engine.modify_modify_in (e : Engine) (F1 F2 : Floor → Floor)
    (hlen : e.currentFloorIndex < e.floors.length) :
    (e.modifyCurrentFloor F1).modifyCurrentFloor F2
      = e.modifyCurrentFloor (fun fl => F2 (F1 fl)) := by
  rw [Engine.modify_def (e.modifyCurrentFloor F1) F2]
  rw [Engine.currentFloor_modify, if_pos hlen]
  rw [Engine.modify_def e F1, Engine.modify_def e]
  simp only [List.set_set]

theorem Engine.update_update (e : Engine) (i : Nat) (f g : Entity → Entity)
    (hf : ∀ a, (f a).eid = a.eid) :
    (e.updateEntityById i f).updateEntityById i g
      = e.updateEntityById i (fun a => g (f a)) := by
  unfold Engine.updateEntityById
  by_cases hpl : e.player.eid = i
  · simp only [if_pos hpl]
    rw [if_pos (show (f e.player).eid = i by rw [hf]; exact hpl)]
  · simp only [if_neg hpl, Engine.player_modify]
    by_cases hlen : e.currentFloorIndex < e.floors.length
    · rw [Engine.modify_modify_in _ _ _ hlen]
      congr 1
      funext fl
      simp only
      congr 1
      rw [List.map_map]
      apply List.map_congr_left
      intro a _
      by_cases ha : a.eid = i
      · simp only [Function.comp_apply, if_pos ha]
        rw [if_pos (show (f a).eid = i by rw [hf]; exact ha)]
      · simp only [Function.comp_apply, if_neg ha]
    · rw [Engine.modify_oob _ _ hlen, Engine.modify_oob _ _ hlen]
      exact (Engine.modify_oob _ _ hlen).symm

/-- C10 (confirmed).  An AI activation that changes behavior state mutates
nothing else: when the aggro condition (player within euclidean distance 8
and no non-walkable tile on the straight-line path) holds, the wandering AI
activation only replaces the "ai" slot of the creature with the hostile AI and
returns — consuming no global random draw, leaving the position of every entity
and health unchanged; symmetrically a hostile AI that finds the aggro
condition false reverts the slot to the wandering AI with no move and no
attack. -/
theorem C10_ai_transition_frame (e : Engine) (cid : Nat) (g : GlobalRng) :
    (agroOf e cid = true →
      WanderingAI.perform e cid g =
        .ok (e.updateEntityById cid
          (fun a => { a with ai := AIKind.hostileAI, agro := false }), g)
      ∧ ∀ j,
        (e.updateEntityById cid
          (fun a => { a with ai := AIKind.hostileAI, agro := false })).posMap
          = e.posMap
        ∧ (e.updateEntityById cid
            (fun a => { a with ai := AIKind.hostileAI, agro := false })).healthOf j
          = e.healthOf j)
    ∧ (agroOf e cid = false →
      HostileEnemyAI.perform e cid =
        .ok (e.updateEntityById cid
          (fun a => { a with ai := AIKind.wanderingAI, agro := false }), false)
      ∧ ∀ j,
        (e.updateEntityById cid
          (fun a => { a with ai := AIKind.wanderingAI, agro := false })).posMap
          = e.posMap
        ∧ (e.updateEntityById cid
            (fun a => { a with ai := AIKind.wanderingAI, agro := false })).healthOf j
          = e.healthOf j) := by
  constructor
  · intro ha
    unfold agroOf at ha
    constructor
    · unfold WanderingAI.perform
      simp only
      rw [ha]
      simp only [if_true]
      rw [Engine.update_update e cid (fun a => { a with agro := true })
        (fun a => { a with ai := AIKind.hostileAI, agro := false })
        (fun a => rfl)]
    · intro j
      exact ⟨Engine.posMap_update e cid _ (fun a => ⟨rfl, rfl, rfl⟩),
        Engine.healthOf_update_preserve e cid j _ (fun a => rfl) (fun a => rfl)⟩
  · intro ha
    unfold agroOf at ha
    constructor
    · unfold HostileEnemyAI.perform
      simp only
      rw [ha]
      simp only [Bool.false_eq_true, not_false_eq_true, if_true]
      rw [Engine.update_update e cid (fun a => { a with agro := false })
        (fun a => { a with ai := AIKind.wanderingAI, agro := false })
        (fun a => rfl)]
    · intro j
      exact ⟨Engine.posMap_update e cid _ (fun a => ⟨rfl, rfl, rfl⟩),
        Engine.healthOf_update_preserve e cid j _ (fun a => rfl) (fun a => rfl)⟩

/-- Witness for C10: a creature two cells from the player aggroes and only
swaps its AI slot; one ten cells away loses aggro and reverts. -/
theorem C10_ai_transition_frame_witness :
    WanderingAI.perform c10Near 5 [] =
      .ok (c10Near.updateEntityById 5
        (fun a => { a with ai := AIKind.hostileAI, agro := false }), [])
    ∧ HostileEnemyAI.perform c10Far 5 =
      .ok (c10Far.updateEntityById 5
        (fun a => { a with ai := AIKind.wanderingAI, agro := false }), false) := by
  refine ⟨?_, ?_⟩
  · exact ((C10_ai_transition_frame c10Near 5 []).1 (by decide)).1
  · exact ((C10_ai_transition_frame c10Far 5 ([] : GlobalRng)).2 (by decide)).1

theorem Engine.posMap_applyDamage (e : Engine) (i : Nat) (d : Int) :
    (e.applyDamage i d).posMap = e.posMap :=
  Engine.posMap_update e i _ (fun _ => ⟨rfl, rfl, rfl⟩)

theorem Engine.posMap_handleSlain (e : Engine) (tid aidd : Nat) :
    (MeleeAction.handleSlain e tid aidd).posMap.Perm e.posMap := by
  unfold MeleeAction.handleSlain
  simp only
  split
  · rw [Engine.posMap_update]
    · split
      · rw [Engine.posMap_setSlayed, Engine.posMap_addMessage,
          Engine.posMap_addMessage]
        exact Engine.posMap_moveEntityToBack e tid
      · rw [Engine.posMap_addMessage]
        exact Engine.posMap_moveEntityToBack e tid
    · intro a
      exact ⟨rfl, rfl, rfl⟩
  · exact List.Perm.refl _

theorem Engine.rolls_addMessage (e : Engine) (m : String) :
    (e.addMessage m).rolls = e.rolls := rfl

theorem Engine.rolls_recordTurn (e : Engine) :
    e.recordTurn.rolls = e.rolls := rfl

theorem Engine.rolls_rollNext (e : Engine) :
    e.rollNext.rolls = e.rolls.tail := rfl

theorem Engine.rollHead_eq (e : Engine) : e.rollHead = e.rolls.headD false := rfl

theorem Engine.rolls_applyDamage (e : Engine) (i : Nat) (d : Int) :
    (e.applyDamage i d).rolls = e.rolls :=
  Engine.rolls_update e i _

theorem Engine.findEntity_addMessage (e : Engine) (m : String) (j : Nat) :
    (e.addMessage m).findEntity j = e.findEntity j := rfl

theorem Engine.findEntity_recordTurn (e : Engine) (j : Nat) :
    e.recordTurn.findEntity j = e.findEntity j := rfl

theorem Engine.findEntity_rollNext (e : Engine) (j : Nat) :
    e.rollNext.findEntity j = e.findEntity j := rfl

theorem Engine.findEntity_applyDamage_self (e : Engine) (i : Nat) (d : Int)
    (a : Entity) (hs : e.findEntity i = some a) :
    (e.applyDamage i d).findEntity i
      = some { a with fighter := { a.fighter with
          health := a.fighter.health - d } } := by
  unfold Engine.applyDamage
  rw [Engine.findEntity_update]
  · rw [if_pos rfl, hs]
    rfl
  · intro b
    rfl

theorem Engine.healthOf_handleSlain (e : Engine) (tid aidd : Nat)
    (hwf : e.wfIds) :
    (MeleeAction.handleSlain e tid aidd).healthOf tid = e.healthOf tid := by
  unfold MeleeAction.handleSlain
  simp only
  split
  · rw [Engine.healthOf_update_preserve]
    · split
      · rw [Engine.healthOf_setSlayed, Engine.healthOf_addMessage,
          Engine.healthOf_addMessage]
        exact Engine.healthOf_moveEntityToBack e tid tid hwf
      · rw [Engine.healthOf_addMessage]
        exact Engine.healthOf_moveEntityToBack e tid tid hwf
    · intro a
      rfl
    · intro a
      rfl
  · rfl

theorem MeleeAction.posMap_perform (e : Engine) (aid : Nat) (dx dy : Int)
    (r : Engine) (b : Bool)
    (h : MeleeAction.perform e aid dx dy = .ok (r, b)) :
    r.posMap.Perm e.posMap := by
  unfold MeleeAction.perform at h
  simp only at h
  rcases hb : e.blockingEntityAt (((e.findEntity aid).getD default).x + dx)
      (((e.findEntity aid).getD default).y + dy) with _ | t
  · rw [hb] at h
    cases h
  · rw [hb] at h
    simp only at h
    split_ifs at h
    all_goals
      simp only [PyResult.ok.injEq, Prod.mk.injEq] at h
    all_goals
      obtain ⟨hr, _⟩ := h
    all_goals
      subst hr
    all_goals
      first
      | (refine (Engine.posMap_handleSlain _ _ _).trans ?_
         simp only [Engine.posMap_addMessage, Engine.posMap_recordTurn,
           Engine.posMap_rollNext, Engine.posMap_applyDamage]
         exact List.Perm.refl _)
      | (simp only [Engine.posMap_addMessage, Engine.posMap_recordTurn,
           Engine.posMap_rollNext, Engine.posMap_applyDamage]
         exact List.Perm.refl _)

/-- C6 (confirmed).  A Move (bump) into a cell occupied by a blocking entity
that does not trigger the player-ally swap resolves as the very same melee
attack an explicit Attack action performs — the two produce identical
results — and that melee resolution leaves the (id, x, y) position state of
the player and every floor entity unchanged (as a multiset; a slain target
is only re-sorted to the back of the entity list). -/
theorem C6_bump_equals_attack (e : Engine) (aid : Nat) (dx dy : Int)
    (t : Entity)
    (hblock : e.blockingEntityAt (((e.findEntity aid).getD default).x + dx)
        (((e.findEntity aid).getD default).y + dy) = some t)
    (hnoswap : ¬ (aid = e.player.eid ∧ t.ai = AIKind.allyAI)) :
    BumpAction.perform e aid dx dy false = MeleeAction.perform e aid dx dy
    ∧ ∀ r b, MeleeAction.perform e aid dx dy = .ok (r, b) →
        r.posMap.Perm e.posMap := by
  constructor
  · unfold BumpAction.perform
    simp only
    rw [hblock]
    simp only [Bool.false_eq_true, if_false]
    rw [if_neg hnoswap]
  · intro r b h
    exact MeleeAction.posMap_perform e aid dx dy r b h

/-- Witness for C6: the player bumping into the adjacent hostile creature
runs the same resolution as an explicit melee attack. -/
theorem C6_bump_equals_attack_witness :
    BumpAction.perform c6Engine 0 0 1 false
      = MeleeAction.perform c6Engine 0 0 1 := by
  exact (C6_bump_equals_attack c6Engine 0 0 1 c6Blocker (by decide)
    (by decide)).1

theorem Engine.wf_applyDamage (e : Engine) (i : Nat) (d : Int)
    (hwf : e.wfIds) : (e.applyDamage i d).wfIds :=
  Engine.wf_update e i
    (fun a => { a with fighter := { a.fighter with
      health := a.fighter.health - d } })
    (fun _ => rfl) hwf

theorem MeleeAction.perform_isOk (e : Engine) (aid : Nat) (dx dy : Int)
    (t : Entity)
    (hblock : e.blockingEntityAt (((e.findEntity aid).getD default).x + dx)
        (((e.findEntity aid).getD default).y + dy) = some t) :
    ∃ r bb, MeleeAction.perform e aid dx dy = .ok (r, bb) := by
  unfold MeleeAction.perform
  simp only
  rw [hblock]
  simp only
  split_ifs <;> exact ⟨_, _, rfl⟩

theorem Engine.healthOf_eq_of_found (e : Engine) (i : Nat) (a : Entity)
    (h : e.findEntity i = some a) : e.healthOf i = a.fighter.health := by
  unfold Engine.healthOf
  rw [h]
  rfl

theorem Engine.healthOf_applyDamage_of_found (e : Engine) (i : Nat) (d : Int)
    (h : (e.findEntity i).isSome = true) :
    (e.applyDamage i d).healthOf i = e.healthOf i - d := by
  rcases hfe : e.findEntity i with _ | a
  · rw [hfe] at h
    cases h
  · rw [Engine.healthOf_applyDamage_self e i d a hfe,
      Engine.healthOf_eq_of_found e i a hfe]

theorem Engine.findEntity_applyDamage_isSome (e : Engine) (i : Nat) (d : Int)
    (j : Nat) :
    ((e.applyDamage i d).findEntity j).isSome = (e.findEntity j).isSome := by
  unfold Engine.applyDamage
  rw [Engine.findEntity_update]
  · split
    · rcases e.findEntity j with _ | a <;> rfl
    · rfl
  · intro a
    rfl

/-- C3 (corrected).  In melee resolution with the player involved as
attacker or target, after a successful hit-chance roll one independent
double-hit roll decides whether one or two attacks land, each landing attack
independently draws its own critical-hit roll (the third and fourth draws of
the stream — never a shared roll), and each subtracts its own damage tier
(critical damage on a critical roll, base damage otherwise) from the target
health.  The original claim fails for creature-versus-creature melee, where
the resolution returns right after the damage of the first sub-hit and a granted
second attack never lands (see the counterexample). -/
theorem C3_melee_double_hit_criticals (e : Engine) (aid : Nat) (dx dy : Int)
    (t : Entity) (b c1 c2 : Bool) (rest : List Bool)
    (hwf : e.wfIds)
    (hblock : e.blockingEntityAt (((e.findEntity aid).getD default).x + dx)
        (((e.findEntity aid).getD default).y + dy) = some t)
    (hp : aid = e.player.eid ∨ t.eid = e.player.eid)
    (hrolls : e.rolls = true :: b :: c1 :: c2 :: rest) :
    (∃ r2 bb2, MeleeAction.perform e aid dx dy = .ok (r2, bb2))
    ∧ ∀ r bb, MeleeAction.perform e aid dx dy = .ok (r, bb) →
        bb = true
        ∧ r.healthOf t.eid
          = t.fighter.health
            - dmgTier ((e.findEntity aid).getD default).fighter c1
            - (if b then dmgTier ((e.findEntity aid).getD default).fighter c2
               else 0) := by
  refine ⟨MeleeAction.perform_isOk e aid dx dy t hblock, ?_⟩
  intro r bb h
  have hfe : e.findEntity t.eid = some t :=
    Engine.findEntity_of_blocking e _ _ t hwf hblock
  unfold MeleeAction.perform at h
  simp only at h
  rw [hblock] at h
  simp only at h
  by_cases hip : aid = e.player.eid
  · cases b
    · simp only [hip, hrolls, Engine.rollHead_eq, Engine.rolls_recordTurn,
        Engine.rolls_rollNext, Engine.rolls_addMessage,
        Engine.rolls_applyDamage, List.headD_cons, List.tail_cons,
        eq_self_iff_true, if_true, ite_true, if_false, ite_false,
        not_true, not_false_iff, Bool.false_eq_true, and_true, true_and,
        and_false, false_and, not_true_eq_false, not_false_eq_true] at h
      simp only [PyResult.ok.injEq, Prod.mk.injEq] at h
      obtain ⟨hr, hbb⟩ := h
      subst hr
      refine ⟨hbb.symm, ?_⟩
      simp only [hip]
      rw [Engine.healthOf_handleSlain]
      · rw [Engine.healthOf_addMessage]
        rw [Engine.healthOf_applyDamage_of_found]
        · rw [show (e.recordTurn.rollNext.rollNext.rollNext).healthOf t.eid
              = t.fighter.health from Engine.healthOf_eq_of_found _ _ t hfe]
          simp
        · rw [show (e.recordTurn.rollNext.rollNext.rollNext).findEntity t.eid
              = some t from hfe]
          rfl
      · exact Engine.wf_applyDamage (e.recordTurn.rollNext.rollNext.rollNext)
          t.eid _ hwf
    · simp only [hip, hrolls, Engine.rollHead_eq, Engine.rolls_recordTurn,
        Engine.rolls_rollNext, Engine.rolls_addMessage,
        Engine.rolls_applyDamage, List.headD_cons, List.tail_cons,
        eq_self_iff_true, if_true, ite_true, if_false, ite_false,
        not_true, not_false_iff, Bool.false_eq_true, and_true, true_and,
        and_false, false_and, not_true_eq_false, not_false_eq_true] at h
      simp only [PyResult.ok.injEq, Prod.mk.injEq] at h
      obtain ⟨hr, hbb⟩ := h
      subst hr
      refine ⟨hbb.symm, ?_⟩
      simp only [hip]
      rw [Engine.healthOf_handleSlain]
      · rw [Engine.healthOf_addMessage]
        rw [Engine.healthOf_applyDamage_of_found]
        · rw [Engine.healthOf_rollNext, Engine.healthOf_addMessage]
          rw [Engine.healthOf_applyDamage_of_found]
          · rw [show ((e.recordTurn.rollNext.rollNext.addMessage
                "Double hit!").rollNext).healthOf t.eid
                = t.fighter.health from Engine.healthOf_eq_of_found _ _ t hfe]
            simp
          · rw [show ((e.recordTurn.rollNext.rollNext.addMessage
                "Double hit!").rollNext).findEntity t.eid
                = some t from hfe]
            rfl
        · simp only [Engine.findEntity_rollNext, Engine.findEntity_addMessage,
            Engine.findEntity_recordTurn, Engine.findEntity_applyDamage_isSome]
          rw [hfe]
          rfl
      · exact Engine.wf_applyDamage _ t.eid _
          (Engine.wf_applyDamage
            ((e.recordTurn.rollNext.rollNext.addMessage "Double hit!").rollNext)
            t.eid _ hwf)
  · have htp : t.eid = e.player.eid := hp.resolve_left hip
    cases b
    · simp only [hip, htp, hrolls, Engine.rollHead_eq, Engine.rolls_recordTurn,
        Engine.rolls_rollNext, Engine.rolls_addMessage,
        Engine.rolls_applyDamage, List.headD_cons, List.tail_cons,
        eq_self_iff_true, if_true, ite_true, if_false, ite_false,
        not_true, not_false_iff, Bool.false_eq_true, and_true, true_and,
        and_false, false_and, not_true_eq_false, not_false_eq_true] at h
      simp only [PyResult.ok.injEq, Prod.mk.injEq] at h
      obtain ⟨hr, hbb⟩ := h
      subst hr
      refine ⟨hbb.symm, ?_⟩
      rw [show t.eid = e.player.eid from htp] at hfe ⊢
      rw [Engine.healthOf_handleSlain]
      · rw [Engine.healthOf_addMessage]
        rw [Engine.healthOf_applyDamage_of_found]
        · rw [show (e.rollNext.rollNext.rollNext).healthOf e.player.eid
              = t.fighter.health from Engine.healthOf_eq_of_found _ _ t hfe]
          simp
        · rw [show (e.rollNext.rollNext.rollNext).findEntity e.player.eid
              = some t from hfe]
          rfl
      · exact Engine.wf_applyDamage (e.rollNext.rollNext.rollNext)
          e.player.eid _ hwf
    · simp only [hip, htp, hrolls, Engine.rollHead_eq, Engine.rolls_recordTurn,
        Engine.rolls_rollNext, Engine.rolls_addMessage,
        Engine.rolls_applyDamage, List.headD_cons, List.tail_cons,
        eq_self_iff_true, if_true, ite_true, if_false, ite_false,
        not_true, not_false_iff, Bool.false_eq_true, and_true, true_and,
        and_false, false_and, not_true_eq_false, not_false_eq_true] at h
      simp only [PyResult.ok.injEq, Prod.mk.injEq] at h
      obtain ⟨hr, hbb⟩ := h
      subst hr
      refine ⟨hbb.symm, ?_⟩
      rw [show t.eid = e.player.eid from htp] at hfe ⊢
      rw [Engine.healthOf_handleSlain]
      · rw [Engine.healthOf_addMessage]
        rw [Engine.healthOf_applyDamage_of_found]
        · rw [Engine.healthOf_rollNext, Engine.healthOf_addMessage]
          rw [Engine.healthOf_applyDamage_of_found]
          · rw [show (e.rollNext.rollNext.rollNext).healthOf e.player.eid
                = t.fighter.health from Engine.healthOf_eq_of_found _ _ t hfe]
            simp
          · rw [show (e.rollNext.rollNext.rollNext).findEntity e.player.eid
                = some t from hfe]
            rfl
        · simp only [Engine.findEntity_rollNext, Engine.findEntity_addMessage,
            Engine.findEntity_recordTurn, Engine.findEntity_applyDamage_isSome]
          rw [hfe]
          rfl
      · exact Engine.wf_applyDamage _ e.player.eid _
          (Engine.wf_applyDamage (e.rollNext.rollNext.rollNext)
            e.player.eid _ hwf)

/-- Witness for C3: the player lands a double hit on the adjacent creature;
the first sub-hit is non-critical (base damage 8), the second critical
(critical damage 16). -/
theorem C3_melee_double_hit_criticals_witness :
    ∃ r bb, MeleeAction.perform c3Engine 0 0 1 = PyResult.ok (r, bb)
      ∧ bb = true
      ∧ r.healthOf c3Target.eid = 100 - 8 - 16 := by
  obtain ⟨r2, bb2, hok⟩ := (C3_melee_double_hit_criticals c3Engine 0 0 1
    c3Target true false true [] (by decide) (by decide) (Or.inl (by decide))
    (by decide)).1
  have h2 := (C3_melee_double_hit_criticals c3Engine 0 0 1
    c3Target true false true [] (by decide) (by decide) (Or.inl (by decide))
    (by decide)).2 r2 bb2 hok
  refine ⟨r2, bb2, hok, h2.1, ?_⟩
  rw [h2.2]
  decide

/-- C3 counterexample.  In creature-versus-creature melee the double-hit
roll grants a second attack but the resolution returns immediately after the
first sub-hit applies its damage: the target ends at 20 - 6 = 14 health (one
critical sub-hit), not the 20 - 6 - 6 = 8 the claim requires, and the second
critical draw is never consumed (one roll is left in the stream instead of
none). -/
theorem C3_counterexample :
    (MeleeAction.perform ccEngine 1 0 1).isOk = true
    ∧ (meleeResultEngine (MeleeAction.perform ccEngine 1 0 1)).healthOf 2 = 14
    ∧ ¬ (meleeResultEngine (MeleeAction.perform ccEngine 1 0 1)).healthOf 2 = 8
    ∧ (meleeResultEngine (MeleeAction.perform ccEngine 1 0 1)).rolls
        = [true] := by
  refine ⟨?_, ?_, ?_, ?_⟩ <;> decide

/-- C1 (code bug).  The spec requires every probabilistic decision to draw
from the single seeded RNG stream, but component.py (wander decisions),
dungeon/floor.py (room placement) and dungeon/spawner.py (enemy choice) draw
from the global unseeded `random` module, a stream distinct from the
engine-owned seeded `RandomNumberGenerator` that the save system stores.
Two runs with identical engine state — in particular an identical seeded
stream — but different global-stream states produce different creature
positions, so a fixed seed does not reproduce the playthrough. -/
theorem C1_seed_determinism_broken :
    (WanderingAI.perform c1Engine 7 c1gA).isOk = true
    ∧ (WanderingAI.perform c1Engine 7 c1gB).isOk = true
    ∧ (wanderResultEngine (WanderingAI.perform c1Engine 7 c1gA)).rolls
        = c1Engine.rolls
    ∧ (wanderResultEngine (WanderingAI.perform c1Engine 7 c1gB)).rolls
        = c1Engine.rolls
    ∧ (wanderResultEngine (WanderingAI.perform c1Engine 7 c1gA)).posOf 7
        = (1, 1)
    ∧ (wanderResultEngine (WanderingAI.perform c1Engine 7 c1gB)).posOf 7
        = (2, 2)
    ∧ ¬ (wanderResultEngine (WanderingAI.perform c1Engine 7 c1gA)).posOf 7
        = (wanderResultEngine (WanderingAI.perform c1Engine 7 c1gB)).posOf 7 := by
  refine ⟨?_, ?_, ?_, ?_, ?_, ?_, ?_⟩ <;> decide
